import Mathlib

/-!
# ATen argument-checking utilities (`aten/src/ATen/Utils.h`)

A shallow embedding of the helpers of `ATen/Utils.h`:

* `checked_dense_tensor_unwrap`, `checked_dense_tensor_list_unwrap`
* `check_intlist`
* `sum_intlist`, `prod_intlist`
* `check_size_nonnegative`
* `check_generator`, `get_generator_or_default`

`AT_ERROR` / `TORCH_CHECK` failures are modelled by `Except.error`, carrying the
values that the source streams into the message.  Pointers that may be null are
`Option`s (`none` is `nullptr`).  `int64_t` values are `Int`s and every 64-bit
operation is reduced into the signed range by `wrapInt64`.  The `unsigned int`
counter of the tensor-list loop is incremented modulo `2 ^ 32`; that loop takes a
bound on the number of evaluations of its test and answers `none` when it has not
ended within the bound.
-/

namespace ATen

/-! ## Collaborator types -/

/-- Modelled from the spec: the layout tag of a tensor (`c10::Layout` is declared
outside `Utils.h`).  Only the distinguished value `Strided` matters here. -/
inductive Layout where
  | Strided
  | Sparse
  | Mkldnn
  deriving DecidableEq, Repr

/-- Modelled from the spec: the device family tag (`c10::DeviceType` is declared
outside `Utils.h`).  The checks only compare two tags for equality. -/
inductive DeviceType where
  | CPU
  | CUDA
  | HIP
  deriving DecidableEq, Repr

/-- Modelled from the spec: the element type tag (`c10::ScalarType` is declared
outside `Utils.h`).  The checks only compare two tags for equality. -/
inductive ScalarType where
  | Byte
  | Char
  | Short
  | Int
  | Long
  | Half
  | Float
  | Double
  deriving DecidableEq, Repr

/-- Modelled from the spec: a device, of which only `type()` is queried. -/
structure Device where
  type : DeviceType
  index : Int
  deriving DecidableEq, Repr

/-- Modelled from the spec: the backing implementation object a raw
`TensorImpl*` points to, identified by its address. -/
structure TensorImpl where
  addr : Nat
  deriving DecidableEq, Repr

/-- Modelled from the spec: a type-erased tensor value with its queryable
attributes `defined()`, `layout()`, `device()`, `scalar_type()` and the backing
implementation returned by `unsafeGetTensorImpl()`. -/
structure Tensor where
  defined : Bool
  layout : Layout
  device : Device
  scalar_type : ScalarType
  impl : TensorImpl
  deriving DecidableEq, Repr

/-- The accessor `Tensor::unsafeGetTensorImpl()`: the raw, non-owning handle. -/
def Tensor.unsafeGetTensorImpl (t : Tensor) : TensorImpl := t.impl

/-! ## Errors -/

/-- The trailing part of a tensor diagnostic: either
`" for argument #pos 'name' in call to api"` or
`" for sequence element i in sequence argument at position #pos 'name'"`. -/
inductive ArgRef where
  | argument (pos : Int) (name : String) (api : String)
  | sequenceElement (i : Nat) (pos : Int) (name : String)
  deriving DecidableEq, Repr

/-- One constructor per `AT_ERROR` / `TORCH_CHECK` site of `Utils.h`, with the
values streamed into its message. -/
inductive Error where
  /-- "Expected dense tensor but got `got`". -/
  | LayoutMismatch (got : Layout) (ref : ArgRef)
  /-- "Expected object of device type `expected` but got device type `got`". -/
  | DeviceMismatch (expected got : DeviceType) (ref : ArgRef)
  /-- "Expected object of scalar type `expected` but got scalar type `got`". -/
  | DtypeMismatch (expected got : ScalarType) (ref : ArgRef)
  /-- "Expected a list of `expected` ints but got `actual` for argument #pos 'name'". -/
  | ArityMismatch (expected actual : Nat) (pos : Int) (name : String)
  /-- "Trying to create tensor with negative dimension `x`: `size`". -/
  | InvalidSize (x : Int) (size : List Int)
  /-- "Expected Generator but received nullopt". -/
  | MissingGenerator
  /-- "Generator with undefined implementation is not allowed". -/
  | UndefinedGenerator
  /-- "Expected a `expected` device type for generator but found `got`". -/
  | DeviceTypeMismatch (expected got : DeviceType)
  deriving DecidableEq, Repr

/-! ## Tensor unwrapping -/

/-- The function `checked_dense_tensor_unwrap` (Utils.h:29-46).  The result
`none` is `nullptr`. -/
def checked_dense_tensor_unwrap (expr : Tensor) (name : String) (pos : Int) (api : String)
    (allowNull : Bool) (device_type : DeviceType) (scalar_type : ScalarType) :
    Except Error (Option TensorImpl) :=
  if allowNull && !expr.defined then
    .ok none
  else if expr.layout ≠ Layout.Strided then
    .error (Error.LayoutMismatch expr.layout (ArgRef.argument pos name api))
  else if expr.device.type ≠ device_type then
    .error (Error.DeviceMismatch device_type expr.device.type (ArgRef.argument pos name api))
  else if expr.scalar_type ≠ scalar_type then
    .error (Error.DtypeMismatch scalar_type expr.scalar_type (ArgRef.argument pos name api))
  else
    .ok (some expr.unsafeGetTensorImpl)

/-- The `for` loop of `checked_dense_tensor_list_unwrap` (Utils.h:54-69), from
the test `i < tensors.size()` on, with `unwrapped` the vector built so far.  The
counter `i` is an `unsigned int`: `++i` is `(i + 1) % 2 ^ 32`, while
`tensors.size()` is a `size_t`.  The first argument bounds the number of times
the test is evaluated; the result `none` says that the loop has not ended within
that bound. -/
def checked_dense_tensor_list_unwrap.loop (tensors : List Tensor) (name : String) (pos : Int)
    (device_type : DeviceType) (scalar_type : ScalarType) :
    Nat → Nat → List TensorImpl → Option (Except Error (List TensorImpl))
  | 0, _, _ => none
  | fuel + 1, i, unwrapped =>
    if h : i < tensors.length then
      let expr := tensors[i]
      if expr.layout ≠ Layout.Strided then
        some (.error (Error.LayoutMismatch expr.layout (ArgRef.sequenceElement i pos name)))
      else if expr.device.type ≠ device_type then
        some (.error (Error.DeviceMismatch device_type expr.device.type
          (ArgRef.sequenceElement i pos name)))
      else if expr.scalar_type ≠ scalar_type then
        some (.error (Error.DtypeMismatch scalar_type expr.scalar_type
          (ArgRef.sequenceElement i pos name)))
      else
        checked_dense_tensor_list_unwrap.loop tensors name pos device_type scalar_type fuel
          ((i + 1) % 2 ^ 32) (unwrapped ++ [expr.unsafeGetTensorImpl])
    else
      some (.ok unwrapped)

/-- The function `checked_dense_tensor_list_unwrap` (Utils.h:51-71): the loop
run from `i = 0` with the empty vector, within `fuel` evaluations of its test. -/
def checked_dense_tensor_list_unwrap (tensors : List Tensor) (name : String) (pos : Int)
    (device_type : DeviceType) (scalar_type : ScalarType) (fuel : Nat) :
    Option (Except Error (List TensorImpl)) :=
  checked_dense_tensor_list_unwrap.loop tensors name pos device_type scalar_type fuel 0 []

/-- The diagnostic of the first of the three checks of the loop body which the
element `expr` at sequence index `i` fails; `none` when it passes all three.
Used to state what the loop reports. -/
def checked_dense_tensor_list_unwrap.firstFailure (name : String) (pos : Int)
    (device_type : DeviceType) (scalar_type : ScalarType) (expr : Tensor) (i : Nat) :
    Option Error :=
  if expr.layout ≠ Layout.Strided then
    some (Error.LayoutMismatch expr.layout (ArgRef.sequenceElement i pos name))
  else if expr.device.type ≠ device_type then
    some (Error.DeviceMismatch device_type expr.device.type (ArgRef.sequenceElement i pos name))
  else if expr.scalar_type ≠ scalar_type then
    some (Error.DtypeMismatch scalar_type expr.scalar_type (ArgRef.sequenceElement i pos name))
  else
    none

/-! ## Integer lists -/

/-- The member `std::array::fill`: every slot is overwritten with `v`. -/
def arrayFill (res : List Int) (v : Int) : List Int := res.map fun _ => v

/-- The algorithm `std::copy_n(src.begin(), n, dst.begin())`: the first `n`
elements of `src` overwrite the first `n` slots of `dst`. -/
def copy_n (src : List Int) (n : Nat) (dst : List Int) : List Int :=
  src.take n ++ dst.drop n

/-- The function template `check_intlist<N>` (Utils.h:73-90).  A
`std::array<int64_t, N>` is a list; `std::array<int64_t, N>()` is `N` zeros. -/
def check_intlist (N : Nat) (list : List Int) (name : String) (pos : Int) :
    Except Error (List Int) :=
  let list := if list.isEmpty then [] else list
  let res := List.replicate N (0 : Int)
  if h : list.length = 1 ∧ N > 1 then
    .ok (arrayFill res (list.get ⟨0, by omega⟩))
  else if list.length ≠ N then
    .error (Error.ArityMismatch N list.length pos name)
  else
    .ok (copy_n list N res)

/-- The range of `int64_t`. -/
def isInt64 (x : Int) : Prop := -(2 : Int) ^ 63 ≤ x ∧ x < (2 : Int) ^ 63

instance (x : Int) : Decidable (isInt64 x) := by
  unfold isInt64; infer_instance

/-- Reduction of an integer modulo `2^64` into the range of `int64_t`. -/
def wrapInt64 (x : Int) : Int := (x + (2 : Int) ^ 63) % (2 : Int) ^ 64 - (2 : Int) ^ 63

/-- The `int64_t` addition, wrapping modulo `2^64`. -/
def add64 (a b : Int) : Int := wrapInt64 (a + b)

/-- The functor `std::multiplies<int64_t>`, wrapping modulo `2^64`. -/
def mul64 (a b : Int) : Int := wrapInt64 (a * b)

/-- The function `sum_intlist` (Utils.h:92-94): `std::accumulate` from `0ll`
with `+` on `long long`. -/
def sum_intlist (list : List Int) : Int := list.foldl add64 0

/-- The function template `prod_intlist` (Utils.h:98-101) on a container of
`int64_t`: `std::accumulate` from `static_cast<int64_t>(1)` with
`std::multiplies<int64_t>`. -/
def prod_intlist (container : List Int) : Int := container.foldl mul64 1

/-- The range of `int32_t`. -/
def isInt32 (x : Int) : Prop := -(2 : Int) ^ 31 ≤ x ∧ x < (2 : Int) ^ 31

instance (x : Int) : Decidable (isInt32 x) := by
  unfold isInt32; infer_instance

/-- Reduction of an integer modulo `2^32` into the range of `int32_t`: what a
32-bit accumulator would hold. -/
def wrapInt32 (x : Int) : Int := (x + (2 : Int) ^ 31) % (2 : Int) ^ 32 - (2 : Int) ^ 31

/-- The conversion of an integral element to `int64_t` when it is bound to a
`const int64_t&` parameter of `std::multiplies<int64_t>::operator()`. -/
def toInt64 (x : Int) : Int := wrapInt64 x

/-- The algorithm `std::accumulate(first, last, init, op)` with binary
operation `std::multiplies<int64_t>` over the iterator range `[first, last)` of
the sequence `seq`; iterators are positions in `seq`. -/
def accumulate_multiplies (seq : List Int) (first last : Nat) (init : Int) : Int :=
  ((seq.drop first).take (last - first)).foldl (fun acc x => mul64 acc (toInt64 x)) init

/-- The container overload of `prod_intlist` (Utils.h:98-101) for a container of
any integral value type: `std::accumulate` over `[container.begin(),
container.end())` from `static_cast<int64_t>(1)`. -/
def prod_intlist.container (container : List Int) : Int :=
  accumulate_multiplies container 0 container.length 1

/-- The iterator-range overload of `prod_intlist` (Utils.h:103-107). -/
def prod_intlist.range (seq : List Int) (first last : Nat) : Int :=
  accumulate_multiplies seq first last 1

/-! ## Size lists -/

/-- The range-`for` of `check_size_nonnegative` (Utils.h:132-134): `rest` are
the elements still to visit and `size` is the whole list, streamed into the
message. -/
def check_size_nonnegative.loop (size : List Int) : List Int → Except Error Unit
  | [] => .ok ()
  | x :: rest =>
    if x ≥ 0 then check_size_nonnegative.loop size rest
    else .error (Error.InvalidSize x size)

/-- The function `check_size_nonnegative` (Utils.h:131-135). -/
def check_size_nonnegative (size : List Int) : Except Error Unit :=
  check_size_nonnegative.loop size size

/-! ## Generators -/

/-- Modelled from the spec: the generator implementation object a backend
pointer `T*` points to, identified by its address. -/
structure GeneratorImpl where
  addr : Nat
  deriving DecidableEq, Repr

/-- Modelled from the spec: a type-erased generator (`at::Generator` is declared
outside `Utils.h`) with its queryable attributes `defined()` and `device()` and
its implementation object. -/
structure Generator where
  defined : Bool
  device : Device
  impl : GeneratorImpl
  deriving DecidableEq, Repr

/-- Modelled from the spec: the backend generator type `T` of the templates
(`CPUGeneratorImpl`, `CUDAGeneratorImpl`, ...), of which only the static
`T::device_type()` is used. -/
structure GeneratorBackend where
  device_type : DeviceType
  deriving DecidableEq, Repr

/-- The downcast `Generator::get<T>()`: the implementation pointer as a `T*`. -/
def Generator.get (_T : GeneratorBackend) (g : Generator) : GeneratorImpl := g.impl

/-- The function template `check_generator<T>` (Utils.h:112-118); `none` is
`c10::nullopt`. -/
def check_generator (T : GeneratorBackend) (gen : Option Generator) :
    Except Error GeneratorImpl :=
  match gen with
  | none => .error Error.MissingGenerator
  | some g =>
    if g.defined = false then
      .error Error.UndefinedGenerator
    else if T.device_type ≠ g.device.type then
      .error (Error.DeviceTypeMismatch T.device_type g.device.type)
    else
      .ok (g.get T)

/-- The function template `get_generator_or_default<T>` (Utils.h:126-129).  The
`const Generator&` default is passed to `check_generator` as a present
optional. -/
def get_generator_or_default (T : GeneratorBackend) (gen : Option Generator)
    (default_gen : Generator) : Except Error GeneratorImpl :=
  match gen with
  | some g => if g.defined then check_generator T gen else check_generator T (some default_gen)
  | none => check_generator T (some default_gen)

/-! ## Theorems: `checked_dense_tensor_unwrap` -/

/-- C1: `checked_dense_tensor_unwrap` returns the raw backing handle of the
tensor (a non-null result) exactly when it does not take the null branch and the
layout is `Strided`, the device type is the required one and the scalar type is
the required one; any non-null result is that handle, and none is returned for a
tensor failing one of the three checks. -/
theorem checked_dense_tensor_unwrap_handle_iff (expr : Tensor) (name : String) (pos : Int)
    (api : String) (allowNull : Bool) (device_type : DeviceType) (scalar_type : ScalarType) :
    (checked_dense_tensor_unwrap expr name pos api allowNull device_type scalar_type
        = .ok (some expr.unsafeGetTensorImpl)
      ↔ (¬ (allowNull = true ∧ expr.defined = false) ∧ expr.layout = Layout.Strided
          ∧ expr.device.type = device_type ∧ expr.scalar_type = scalar_type))
    ∧ (∀ h : TensorImpl,
        checked_dense_tensor_unwrap expr name pos api allowNull device_type scalar_type
          = .ok (some h) →
        h = expr.unsafeGetTensorImpl ∧ expr.layout = Layout.Strided
          ∧ expr.device.type = device_type ∧ expr.scalar_type = scalar_type) := by
  unfold checked_dense_tensor_unwrap
  constructor
  · constructor
    · intro h
      split_ifs at h with h1 h2 h3 h4
      · cases h
      · refine ⟨?_, not_not.mp h2, not_not.mp h3, not_not.mp h4⟩
        rintro ⟨ha, hd⟩
        exact h1 (by simp [ha, hd])
    · rintro ⟨h1, h2, h3, h4⟩
      have h1b : ¬ ((allowNull && !expr.defined) = true) := by
        intro hc
        apply h1
        simpa using hc
      simp [h1b, h2, h3, h4]
  · intro h hh
    split_ifs at hh with h1 h2 h3 h4
    · cases hh
    · refine ⟨?_, not_not.mp h2, not_not.mp h3, not_not.mp h4⟩
      simpa using hh.symm

/-- C1 (instance): a defined, strided CPU float tensor is unwrapped to its own
handle, and a CUDA tensor is not unwrapped when CPU is required. -/
theorem checked_dense_tensor_unwrap_handle_iff_witness :
    checked_dense_tensor_unwrap
        ⟨true, Layout.Strided, ⟨DeviceType.CPU, 0⟩, ScalarType.Float, ⟨4096⟩⟩
        "self" 1 "cat" false DeviceType.CPU ScalarType.Float
      = .ok (some ⟨4096⟩)
    ∧ ∀ h : TensorImpl, checked_dense_tensor_unwrap
        ⟨true, Layout.Strided, ⟨DeviceType.CUDA, 0⟩, ScalarType.Float, ⟨4096⟩⟩
        "self" 1 "cat" false DeviceType.CPU ScalarType.Float ≠ .ok (some h) := by
  refine ⟨((checked_dense_tensor_unwrap_handle_iff _ _ _ _ _ _ _).1).2
    ⟨by decide, rfl, rfl, rfl⟩, ?_⟩
  intro h hh
  have := ((checked_dense_tensor_unwrap_handle_iff _ _ _ _ _ _ _).2 h hh).2.2.1
  exact absurd this (by decide)

/-- C2 (as stated, refuted): an undefined tensor whose layout is `Sparse`, passed
with `allowNull = true`, is answered with the null handle and not with a
`LayoutMismatch`. -/
theorem checked_dense_tensor_unwrap_nonstrided_null_branch :
    (⟨false, Layout.Sparse, ⟨DeviceType.CPU, 0⟩, ScalarType.Float, ⟨0⟩⟩ : Tensor).layout
        ≠ Layout.Strided
    ∧ checked_dense_tensor_unwrap
        ⟨false, Layout.Sparse, ⟨DeviceType.CPU, 0⟩, ScalarType.Float, ⟨0⟩⟩
        "self" 1 "cat" true DeviceType.CPU ScalarType.Float
      = .ok none
    ∧ checked_dense_tensor_unwrap
        ⟨false, Layout.Sparse, ⟨DeviceType.CPU, 0⟩, ScalarType.Float, ⟨0⟩⟩
        "self" 1 "cat" true DeviceType.CPU ScalarType.Float
      ≠ .error (Error.LayoutMismatch Layout.Sparse (ArgRef.argument 1 "self" "cat")) := by
  refine ⟨by decide, rfl, ?_⟩
  intro h
  cases h

/-- C2 (amended): for every tensor whose layout is not `Strided` and which does
not take the null branch (`allowNull` is false or the tensor is defined),
whatever the required device type and scalar type,
`checked_dense_tensor_unwrap` fails with `LayoutMismatch`, reporting the actual
layout and the argument position, name and API name. -/
theorem checked_dense_tensor_unwrap_layout_first (expr : Tensor) (name : String) (pos : Int)
    (api : String) (allowNull : Bool) (device_type : DeviceType) (scalar_type : ScalarType)
    (hlayout : expr.layout ≠ Layout.Strided)
    (hnull : allowNull = false ∨ expr.defined = true) :
    checked_dense_tensor_unwrap expr name pos api allowNull device_type scalar_type
      = .error (Error.LayoutMismatch expr.layout (ArgRef.argument pos name api)) := by
  unfold checked_dense_tensor_unwrap
  have h1 : ¬ ((allowNull && !expr.defined) = true) := by
    rcases hnull with h | h <;> simp [h]
  simp [h1, hlayout]

/-- C2 (amended, instance): a defined sparse CUDA tensor of the wrong scalar
type, checked against CPU/Float, fails with `LayoutMismatch`. -/
theorem checked_dense_tensor_unwrap_layout_first_witness :
    checked_dense_tensor_unwrap
        ⟨true, Layout.Sparse, ⟨DeviceType.CUDA, 0⟩, ScalarType.Long, ⟨8⟩⟩
        "self" 1 "cat" true DeviceType.CPU ScalarType.Float
      = .error (Error.LayoutMismatch Layout.Sparse (ArgRef.argument 1 "self" "cat")) :=
  checked_dense_tensor_unwrap_layout_first
    ⟨true, Layout.Sparse, ⟨DeviceType.CUDA, 0⟩, ScalarType.Long, ⟨8⟩⟩
    "self" 1 "cat" true DeviceType.CPU ScalarType.Float (by decide) (Or.inr rfl)

/-- C3: for every undefined tensor, whatever its layout, device type and scalar
type and whatever the required device type and scalar type,
`checked_dense_tensor_unwrap` called with `allowNull = true` succeeds with the
null handle. -/
theorem checked_dense_tensor_unwrap_undefined_null (expr : Tensor) (name : String) (pos : Int)
    (api : String) (device_type : DeviceType) (scalar_type : ScalarType)
    (hundef : expr.defined = false) :
    checked_dense_tensor_unwrap expr name pos api true device_type scalar_type = .ok none := by
  unfold checked_dense_tensor_unwrap
  simp [hundef]

/-- C3 (instance): an undefined sparse CUDA tensor checked against CPU/Float
with `allowNull = true` gives the null handle. -/
theorem checked_dense_tensor_unwrap_undefined_null_witness :
    checked_dense_tensor_unwrap
        ⟨false, Layout.Sparse, ⟨DeviceType.CUDA, 0⟩, ScalarType.Long, ⟨8⟩⟩
        "self" 1 "cat" true DeviceType.CPU ScalarType.Float
      = .ok none :=
  checked_dense_tensor_unwrap_undefined_null
    ⟨false, Layout.Sparse, ⟨DeviceType.CUDA, 0⟩, ScalarType.Long, ⟨8⟩⟩
    "self" 1 "cat" DeviceType.CPU ScalarType.Float rfl

/-! ## Theorems: `check_intlist` -/

/-- The first statement of `check_intlist` leaves the list as it is. -/
theorem check_intlist.empty_reset (list : List Int) :
    (if list.isEmpty then [] else list) = list := by
  cases list <;> simp

/-- The broadcast branch: one element and `N > 1`. -/
theorem check_intlist.broadcast (N : Nat) (v : Int) (name : String) (pos : Int)
    (hN : 1 < N) : check_intlist N [v] name pos = .ok (List.replicate N v) := by
  simp only [check_intlist, arrayFill]
  simp [hN]

/-- The error branch: the length is not `N` and it is not the broadcast case. -/
theorem check_intlist.mismatch (N : Nat) (list : List Int) (name : String) (pos : Int)
    (hlen : list.length ≠ N) (hb : ¬ (list.length = 1 ∧ 1 < N)) :
    check_intlist N list name pos = .error (Error.ArityMismatch N list.length pos name) := by
  simp only [check_intlist, check_intlist.empty_reset]
  rw [dif_neg (by simpa using hb), if_pos hlen]

/-- The copy branch: the length is `N`. -/
theorem check_intlist.copy (N : Nat) (list : List Int) (name : String) (pos : Int)
    (hlen : list.length = N) : check_intlist N list name pos = .ok list := by
  simp only [check_intlist, check_intlist.empty_reset]
  by_cases hb : list.length = 1 ∧ N > 1
  · omega
  · rw [dif_neg hb, if_neg (by simpa using hlen)]
    simp [copy_n, ← hlen]

/-- C6 (as stated, refuted): at arity `N = 0` a one-element list is not
broadcast; `check_intlist<0>` rejects it with `ArityMismatch` (expected 0,
actual 1) and so does not return an array of zero copies. -/
theorem check_intlist_one_element_arity_zero :
    check_intlist 0 [5] "size" 1 = .error (Error.ArityMismatch 0 1 1 "size")
    ∧ check_intlist 0 [5] "size" 1 ≠ .ok (List.replicate 0 5) := by
  refine ⟨rfl, ?_⟩
  intro h
  cases h

/-- C6 (amended): for every arity `N ≥ 1` and every one-element list `[v]`,
`check_intlist<N>` succeeds with `N` copies of `v`; at `N = 0` the one-element
list is rejected with `ArityMismatch` (expected 0, actual 1). -/
theorem check_intlist_one_element (N : Nat) (v : Int) (name : String) (pos : Int) :
    (1 ≤ N → check_intlist N [v] name pos = .ok (List.replicate N v))
    ∧ check_intlist 0 [v] name pos = .error (Error.ArityMismatch 0 1 pos name) := by
  constructor
  · intro hN
    rcases Nat.eq_or_lt_of_le hN with h1 | h1
    · subst h1
      exact check_intlist.copy 1 [v] name pos rfl
    · exact check_intlist.broadcast N v name pos h1
  · exact check_intlist.mismatch 0 [v] name pos (by simp) (by simp)

/-- C6 (amended, instance): `check_intlist<3>` of `[7]` is `[7, 7, 7]` and
`check_intlist<1>` of `[7]` is `[7]`. -/
theorem check_intlist_one_element_witness :
    check_intlist 3 [7] "stride" 2 = .ok [7, 7, 7]
    ∧ check_intlist 1 [7] "stride" 2 = .ok [7] :=
  ⟨(check_intlist_one_element 3 7 "stride" 2).1 (by decide),
   (check_intlist_one_element 1 7 "stride" 2).1 (by decide)⟩

/-- C7: for every arity `N` and every list of length exactly `N`,
`check_intlist<N>` succeeds and returns the input, element for element in the
same order; this includes `N = 0` with the empty list and `N = 1` with a
one-element list. -/
theorem check_intlist_exact_length (N : Nat) (list : List Int) (name : String) (pos : Int)
    (hlen : list.length = N) : check_intlist N list name pos = .ok list :=
  check_intlist.copy N list name pos hlen

/-- C7 (instance): arities 3, 0 and 1 on lists of that length. -/
theorem check_intlist_exact_length_witness :
    check_intlist 3 [4, -5, 6] "size" 1 = .ok [4, -5, 6]
    ∧ check_intlist 0 [] "size" 1 = .ok []
    ∧ check_intlist 1 [9] "size" 1 = .ok [9] :=
  ⟨check_intlist_exact_length 3 [4, -5, 6] "size" 1 rfl,
   check_intlist_exact_length 0 [] "size" 1 rfl,
   check_intlist_exact_length 1 [9] "size" 1 rfl⟩

/-- C8: for every arity `N` and every list of length `M`, `check_intlist<N>`
fails exactly when `M ≠ N` and it is not the broadcast case (`M = 1`, `N > 1`);
the only error is `ArityMismatch` with expected count `N` and actual count `M`
(and the argument position and name); every successful result has exactly `N`
elements; so it fails whenever `N ≠ 1` and `M` is neither 1 nor `N`, and the
empty list is accepted only at `N = 0`. -/
theorem check_intlist_arity_mismatch_iff (N : Nat) (list : List Int) (name : String)
    (pos : Int) :
    ((∃ e, check_intlist N list name pos = .error e)
      ↔ (list.length ≠ N ∧ ¬ (list.length = 1 ∧ N > 1)))
    ∧ (∀ e, check_intlist N list name pos = .error e →
        e = Error.ArityMismatch N list.length pos name)
    ∧ (∀ r, check_intlist N list name pos = .ok r → r.length = N)
    ∧ (N ≠ 1 → list.length ≠ 1 → list.length ≠ N →
        check_intlist N list name pos = .error (Error.ArityMismatch N list.length pos name))
    ∧ ((∃ r, check_intlist N [] name pos = .ok r) ↔ N = 0) := by
  have hcases : (list.length ≠ N ∧ ¬ (list.length = 1 ∧ N > 1)
        ∧ check_intlist N list name pos
          = .error (Error.ArityMismatch N list.length pos name))
      ∨ (¬ (list.length ≠ N ∧ ¬ (list.length = 1 ∧ N > 1))
        ∧ ∃ r, r.length = N ∧ check_intlist N list name pos = .ok r) := by
    by_cases hlen : list.length = N
    · exact Or.inr ⟨fun h => h.1 hlen, list, hlen, check_intlist.copy N list name pos hlen⟩
    · by_cases hb : list.length = 1 ∧ N > 1
      · right
        refine ⟨fun h => h.2 hb, ?_⟩
        obtain ⟨v, hv⟩ := List.length_eq_one.mp hb.1
        subst hv
        exact ⟨List.replicate N v, by simp, check_intlist.broadcast N v name pos hb.2⟩
      · exact Or.inl ⟨hlen, hb, check_intlist.mismatch N list name pos hlen hb⟩
  refine ⟨⟨?_, ?_⟩, ?_, ?_, ?_, ?_⟩
  · rintro ⟨e, he⟩
    rcases hcases with ⟨h1, h2, _⟩ | ⟨_, r, _, hr⟩
    · exact ⟨h1, h2⟩
    · rw [hr] at he
      cases he
  · rintro ⟨h1, h2⟩
    exact ⟨_, check_intlist.mismatch N list name pos h1 h2⟩
  · intro e he
    rcases hcases with ⟨_, _, h⟩ | ⟨_, r, _, hr⟩
    · rw [h] at he
      injection he with he
      exact he.symm
    · rw [hr] at he
      cases he
  · intro r hr
    rcases hcases with ⟨_, _, h⟩ | ⟨_, r2, hlen, hr2⟩
    · rw [h] at hr
      cases hr
    · rw [hr2] at hr
      injection hr with hr
      rw [← hr]
      exact hlen
  · intro hN h1 hlen
    exact check_intlist.mismatch N list name pos hlen (fun h => h1 h.1)
  · constructor
    · rintro ⟨r, hr⟩
      by_contra hN
      have h := check_intlist.mismatch N [] name pos
        (by simpa using fun h : 0 = N => hN h.symm) (by simp)
      rw [h] at hr
      cases hr
    · intro hN
      exact ⟨[], check_intlist.copy N [] name pos (by simp [hN])⟩

/-- C8 (instance): a three-element list at arity 2 fails with `ArityMismatch`
(expected 2, actual 3), and the empty list is rejected at arity 2. -/
theorem check_intlist_arity_mismatch_iff_witness :
    check_intlist 2 [1, 2, 3] "size" 1 = .error (Error.ArityMismatch 2 3 1 "size")
    ∧ ¬ ∃ r, check_intlist 2 [] "size" 1 = .ok r := by
  refine ⟨(check_intlist_arity_mismatch_iff 2 [1, 2, 3] "size" 1).2.2.2.1
    (by decide) (by decide) (by decide), ?_⟩
  intro h
  have := (check_intlist_arity_mismatch_iff 2 [1, 2, 3] "size" 1).2.2.2.2.1 h
  exact absurd this (by decide)

/-! ## Theorems: `sum_intlist` and `prod_intlist` -/

/-- A wrapped value lies in the range of `int64_t`. -/
theorem wrapInt64_isInt64 (x : Int) : isInt64 (wrapInt64 x) := by
  unfold isInt64 wrapInt64
  have h1 := Int.emod_nonneg (x + (2 : Int) ^ 63) (by norm_num : ((2 : Int) ^ 64) ≠ 0)
  have h2 := Int.emod_lt_of_pos (x + (2 : Int) ^ 63) (by norm_num : (0 : Int) < (2 : Int) ^ 64)
  constructor <;> omega

/-- Wrapping leaves a value of the range of `int64_t` as it is. -/
theorem wrapInt64_of_isInt64 (x : Int) (hx : isInt64 x) : wrapInt64 x = x := by
  unfold isInt64 at hx
  unfold wrapInt64
  rw [Int.emod_eq_of_lt (by omega) (by omega)]
  omega

/-- Wrapping only depends on the residue modulo `2^64`. -/
theorem wrapInt64_congr (x y : Int) (h : x ≡ y [ZMOD (2 : Int) ^ 64]) :
    wrapInt64 x = wrapInt64 y := by
  unfold wrapInt64
  have h2 : (x + (2 : Int) ^ 63) % (2 : Int) ^ 64 = (y + (2 : Int) ^ 63) % (2 : Int) ^ 64 :=
    Int.ModEq.add_right ((2 : Int) ^ 63) h
  rw [h2]

/-- A wrapped value is congruent to the value modulo `2^64`. -/
theorem wrapInt64_modEq (x : Int) : wrapInt64 x ≡ x [ZMOD (2 : Int) ^ 64] := by
  unfold wrapInt64
  have h : (x + (2 : Int) ^ 63) % (2 : Int) ^ 64 ≡ x + (2 : Int) ^ 63 [ZMOD (2 : Int) ^ 64] :=
    Int.mod_modEq _ _
  have h2 := Int.ModEq.sub_right ((2 : Int) ^ 63) h
  simpa using h2

/-- The multiplication fold from a wrapped accumulator is the wrapped product. -/
theorem foldl_mul64 (l : List Int) :
    ∀ a : Int, l.foldl mul64 (wrapInt64 a) = wrapInt64 (a * l.prod) := by
  induction l with
  | nil => intro a; simp
  | cons x l ih =>
    intro a
    simp only [List.foldl_cons, List.prod_cons, mul64]
    rw [ih]
    apply wrapInt64_congr
    have h := Int.ModEq.mul_right (x * l.prod) (wrapInt64_modEq a)
    simpa [mul_assoc] using h

/-- The addition fold from a wrapped accumulator is the wrapped sum. -/
theorem foldl_add64 (l : List Int) :
    ∀ a : Int, l.foldl add64 (wrapInt64 a) = wrapInt64 (a + l.sum) := by
  induction l with
  | nil => intro a; simp
  | cons x l ih =>
    intro a
    simp only [List.foldl_cons, List.sum_cons, add64]
    rw [ih]
    apply wrapInt64_congr
    have h := Int.ModEq.add_right (x + l.sum) (wrapInt64_modEq a)
    simpa [add_assoc] using h

/-- The function `prod_intlist` is the product reduced modulo `2^64`. -/
theorem prod_intlist_eq_wrap (l : List Int) : prod_intlist l = wrapInt64 l.prod := by
  have h := foldl_mul64 l 1
  rw [wrapInt64_of_isInt64 1 (by unfold isInt64; norm_num)] at h
  simpa [prod_intlist] using h

/-- The function `sum_intlist` is the sum reduced modulo `2^64`. -/
theorem sum_intlist_eq_wrap (l : List Int) : sum_intlist l = wrapInt64 l.sum := by
  have h := foldl_add64 l 0
  rw [wrapInt64_of_isInt64 0 (by unfold isInt64; norm_num)] at h
  simpa [sum_intlist] using h

/-- C9: `prod_intlist` of the empty list is 1; for every list of `int64_t`
values whose exact product lies in the `int64_t` range, `prod_intlist` (the left
fold of wrapping 64-bit multiplication from 1) is exactly that product, whatever
the intermediate products do; and `prod_intlist [a, b, c]` is `a * b * c`
computed in 64-bit arithmetic. -/
theorem prod_intlist_exact :
    prod_intlist [] = 1
    ∧ (∀ l : List Int, (∀ x ∈ l, isInt64 x) → isInt64 l.prod → prod_intlist l = l.prod)
    ∧ (∀ a b c : Int, isInt64 a → isInt64 b → isInt64 c →
        prod_intlist [a, b, c] = mul64 (mul64 a b) c
        ∧ (isInt64 (a * b * c) → prod_intlist [a, b, c] = a * b * c)) := by
  refine ⟨rfl, ?_, ?_⟩
  · intro l _ hp
    rw [prod_intlist_eq_wrap, wrapInt64_of_isInt64 _ hp]
  · intro a b c ha _ _
    constructor
    · simp only [prod_intlist, List.foldl_cons, List.foldl_nil]
      have h1 : mul64 1 a = a := by
        simp only [mul64, one_mul]
        exact wrapInt64_of_isInt64 a ha
      rw [h1]
    · intro hp
      rw [prod_intlist_eq_wrap]
      simp only [List.prod_cons, List.prod_nil, mul_one]
      rw [← mul_assoc]
      exact wrapInt64_of_isInt64 _ hp

/-- C9 (instance): the product of `[2^62, 2, -1]` is `-2^63`, which fits, while
the partial product `2^63` does not; `prod_intlist` returns `-2^63`. -/
theorem prod_intlist_exact_witness :
    ¬ isInt64 ((2 : Int) ^ 62 * 2)
    ∧ prod_intlist [(2 : Int) ^ 62, 2, -1] = -(2 : Int) ^ 63 := by
  refine ⟨by unfold isInt64; norm_num, ?_⟩
  have h := prod_intlist_exact.2.1 [(2 : Int) ^ 62, 2, -1]
    (by intro x hx; unfold isInt64; simp at hx; rcases hx with rfl | rfl | rfl <;> norm_num)
    (by unfold isInt64; norm_num)
  rw [h]
  norm_num

/-- C10: `sum_intlist` of the empty list is 0; for every list of `int64_t`
values `sum_intlist` is the left fold of wrapping 64-bit addition from 0, which
is the mathematical sum reduced modulo `2^64` into the signed range; hence it is
the exact sum whenever that sum lies in the `int64_t` range. -/
theorem sum_intlist_wrapped_sum :
    sum_intlist [] = 0
    ∧ (∀ l : List Int, (∀ x ∈ l, isInt64 x) →
        sum_intlist l = l.foldl (fun acc x => wrapInt64 (acc + x)) 0
        ∧ sum_intlist l = wrapInt64 l.sum
        ∧ isInt64 (sum_intlist l)
        ∧ sum_intlist l ≡ l.sum [ZMOD (2 : Int) ^ 64]
        ∧ (isInt64 l.sum → sum_intlist l = l.sum)) := by
  refine ⟨rfl, ?_⟩
  intro l _
  refine ⟨rfl, sum_intlist_eq_wrap l, ?_, ?_, ?_⟩
  · rw [sum_intlist_eq_wrap]
    exact wrapInt64_isInt64 _
  · rw [sum_intlist_eq_wrap]
    exact wrapInt64_modEq _
  · intro hs
    rw [sum_intlist_eq_wrap, wrapInt64_of_isInt64 _ hs]

/-- C10 (instance): `[2^63 - 1, 1, -5]` sums to `2^63 - 5` although the partial
sum `2^63` does not fit, and `[2^63 - 1, 1]` wraps to `-2^63`. -/
theorem sum_intlist_wrapped_sum_witness :
    sum_intlist [(2 : Int) ^ 63 - 1, 1, -5] = (2 : Int) ^ 63 - 5
    ∧ sum_intlist [(2 : Int) ^ 63 - 1, 1] = -(2 : Int) ^ 63 := by
  constructor
  · have h := (sum_intlist_wrapped_sum.2 [(2 : Int) ^ 63 - 1, 1, -5]
      (by intro x hx; unfold isInt64; simp at hx; rcases hx with rfl | rfl | rfl <;> norm_num)
      ).2.2.2.2 (by unfold isInt64; norm_num)
    rw [h]
    norm_num
  · have h := (sum_intlist_wrapped_sum.2 [(2 : Int) ^ 63 - 1, 1]
      (by intro x hx; unfold isInt64; simp at hx; rcases hx with rfl | rfl <;> norm_num)
      ).2.1
    rw [h]
    unfold wrapInt64
    norm_num

/-! ## Theorems: `check_size_nonnegative` -/

/-- The loop of `check_size_nonnegative` runs to its end when no remaining
element is negative. -/
theorem check_size_nonnegative.loop_all_nonneg (size : List Int) (rest : List Int)
    (hall : ∀ x ∈ rest, 0 ≤ x) : check_size_nonnegative.loop size rest = .ok () := by
  induction rest with
  | nil => rfl
  | cons x rest ih =>
    have hx : x ≥ 0 := hall x (List.mem_cons_self _ _)
    simp only [check_size_nonnegative.loop, hx, if_true]
    exact ih (fun y hy => hall y (List.mem_cons_of_mem _ hy))

/-- The loop of `check_size_nonnegative` stops at the first negative remaining
element, reporting it together with the whole list. -/
theorem check_size_nonnegative.loop_first_negative (size : List Int) (rest : List Int)
    (hneg : ∃ x ∈ rest, x < 0) :
    ∃ (i : Nat) (x : Int), rest[i]? = some x ∧ x < 0
      ∧ (∀ j < i, ∀ y, rest[j]? = some y → 0 ≤ y)
      ∧ check_size_nonnegative.loop size rest = .error (Error.InvalidSize x size) := by
  induction rest with
  | nil => obtain ⟨x, hx, _⟩ := hneg; cases hx
  | cons x rest ih =>
    by_cases hx : x ≥ 0
    · have hneg2 : ∃ y ∈ rest, y < 0 := by
        obtain ⟨y, hy, hlt⟩ := hneg
        rcases List.mem_cons.mp hy with rfl | hy2
        · omega
        · exact ⟨y, hy2, hlt⟩
      obtain ⟨i, y, hi, hy, hbefore, herr⟩ := ih hneg2
      refine ⟨i + 1, y, by simpa using hi, hy, ?_, ?_⟩
      · intro j hj z hz
        cases j with
        | zero =>
          simp at hz
          omega
        | succ j2 => exact hbefore j2 (by omega) z (by simpa using hz)
      · simpa [check_size_nonnegative.loop, hx] using herr
    · refine ⟨0, x, by simp, by omega, by intro j hj; omega, ?_⟩
      simp [check_size_nonnegative.loop, hx]

/-- C11: `check_size_nonnegative` fails exactly when at least one element is
negative, every failure being an `InvalidSize`, and returns without error
exactly when every element is `≥ 0`; the empty list and lists holding zeros are
accepted. -/
theorem check_size_nonnegative_fails_iff (size : List Int) :
    ((∃ e, check_size_nonnegative size = .error e) ↔ ∃ x ∈ size, x < 0)
    ∧ (∀ e, check_size_nonnegative size = .error e → ∃ x, e = Error.InvalidSize x size)
    ∧ (check_size_nonnegative size = .ok () ↔ ∀ x ∈ size, 0 ≤ x)
    ∧ check_size_nonnegative [] = .ok ()
    ∧ ((∀ x ∈ size, x = 0) → check_size_nonnegative size = .ok ()) := by
  have hcases : (∃ x ∈ size, x < 0) ∨ (∀ x ∈ size, 0 ≤ x) := by
    by_cases h : ∃ x ∈ size, x < 0
    · exact Or.inl h
    · right
      intro x hx
      by_contra hlt
      exact h ⟨x, hx, by omega⟩
  have hexcl : (∃ x ∈ size, x < 0) → ¬ (∀ x ∈ size, 0 ≤ x) := by
    rintro ⟨x, hx, hlt⟩ hall
    have := hall x hx
    omega
  refine ⟨⟨?_, ?_⟩, ?_, ⟨?_, ?_⟩, rfl, ?_⟩
  · rintro ⟨e, he⟩
    rcases hcases with h | h
    · exact h
    · have hok := check_size_nonnegative.loop_all_nonneg size size h
      unfold check_size_nonnegative at he
      rw [hok] at he
      cases he
  · intro hneg
    obtain ⟨_, x, _, _, _, herr⟩ := check_size_nonnegative.loop_first_negative size size hneg
    exact ⟨_, herr⟩
  · intro e he
    rcases hcases with h | h
    · obtain ⟨_, x, _, _, _, herr⟩ := check_size_nonnegative.loop_first_negative size size h
      unfold check_size_nonnegative at he
      rw [herr] at he
      injection he with he
      exact ⟨x, he.symm⟩
    · have hok := check_size_nonnegative.loop_all_nonneg size size h
      unfold check_size_nonnegative at he
      rw [hok] at he
      cases he
  · intro hok
    rcases hcases with h | h
    · obtain ⟨_, x, _, _, _, herr⟩ := check_size_nonnegative.loop_first_negative size size h
      unfold check_size_nonnegative at hok
      rw [herr] at hok
      cases hok
    · exact h
  · intro hall
    exact check_size_nonnegative.loop_all_nonneg size size hall
  · intro hzero
    exact check_size_nonnegative.loop_all_nonneg size size (fun x hx => by rw [hzero x hx])

/-- C11 (instance): `[2, 0, 3]` is accepted and `[2, -1, 3]` is rejected. -/
theorem check_size_nonnegative_fails_iff_witness :
    check_size_nonnegative [2, 0, 3] = .ok ()
    ∧ ∃ e, check_size_nonnegative [2, -1, 3] = .error e := by
  refine ⟨(check_size_nonnegative_fails_iff [2, 0, 3]).2.2.1.2 (by decide), ?_⟩
  exact (check_size_nonnegative_fails_iff [2, -1, 3]).1.2 ⟨-1, by decide, by decide⟩

/-- C18: for every list holding at least one negative element, the `InvalidSize`
error of `check_size_nonnegative` reports the first (lowest-index) negative
element of the list, together with the whole input list as it was passed. -/
theorem check_size_nonnegative_reports_first_negative (size : List Int)
    (hneg : ∃ x ∈ size, x < 0) :
    ∃ (i : Nat) (x : Int), size[i]? = some x ∧ x < 0
      ∧ (∀ j < i, ∀ y, size[j]? = some y → 0 ≤ y)
      ∧ check_size_nonnegative size = .error (Error.InvalidSize x size) :=
  check_size_nonnegative.loop_first_negative size size hneg

/-- C18 (instance): the list `[3, -2, 0, -7]` holds a negative element, and the
error reports a negative element with no negative element before it, and the
list `[3, -2, 0, -7]`. -/
theorem check_size_nonnegative_reports_first_negative_witness :
    (∃ x ∈ ([3, -2, 0, -7] : List Int), x < 0)
    ∧ ∃ (i : Nat) (x : Int), ([3, -2, 0, -7] : List Int)[i]? = some x ∧ x < 0
      ∧ (∀ j < i, ∀ y, ([3, -2, 0, -7] : List Int)[j]? = some y → 0 ≤ y)
      ∧ check_size_nonnegative [3, -2, 0, -7]
        = .error (Error.InvalidSize x [3, -2, 0, -7]) :=
  ⟨⟨-7, by decide, by decide⟩,
   check_size_nonnegative_reports_first_negative [3, -2, 0, -7] ⟨-7, by decide, by decide⟩⟩

/-! ## Theorems: `check_generator` and `get_generator_or_default` -/

/-- C12: for every required backend, `check_generator` on an absent optional
fails with `MissingGenerator`, and on a present but undefined generator it fails
with `UndefinedGenerator` whatever the device type of that generator, hence never
with `DeviceTypeMismatch`. -/
theorem check_generator_absent_or_undefined (T : GeneratorBackend) :
    check_generator T none = .error Error.MissingGenerator
    ∧ (∀ g : Generator, g.defined = false →
        check_generator T (some g) = .error Error.UndefinedGenerator
        ∧ ∀ expected got : DeviceType,
            check_generator T (some g) ≠ .error (Error.DeviceTypeMismatch expected got)) := by
  refine ⟨rfl, ?_⟩
  intro g hg
  have h : check_generator T (some g) = .error Error.UndefinedGenerator := by
    simp [check_generator, hg]
  refine ⟨h, ?_⟩
  intro expected got hc
  rw [h] at hc
  cases hc

/-- C12 (instance): an undefined CUDA generator checked against the CPU backend
fails with `UndefinedGenerator`. -/
theorem check_generator_absent_or_undefined_witness :
    check_generator ⟨DeviceType.CPU⟩ (some ⟨false, ⟨DeviceType.CUDA, 0⟩, ⟨0⟩⟩)
      = .error Error.UndefinedGenerator :=
  ((check_generator_absent_or_undefined ⟨DeviceType.CPU⟩).2
    ⟨false, ⟨DeviceType.CUDA, 0⟩, ⟨0⟩⟩ rfl).1

/-- The three outcomes of `check_generator` on a present generator. -/
theorem check_generator.some_eq (T : GeneratorBackend) (g : Generator) :
    (g.defined = false ∧ check_generator T (some g) = .error Error.UndefinedGenerator)
    ∨ (g.defined = true ∧ g.device.type ≠ T.device_type
        ∧ check_generator T (some g)
          = .error (Error.DeviceTypeMismatch T.device_type g.device.type))
    ∨ (g.defined = true ∧ g.device.type = T.device_type
        ∧ check_generator T (some g) = .ok (g.get T)) := by
  by_cases hd : g.defined = false
  · exact Or.inl ⟨hd, by simp [check_generator, hd]⟩
  · have hd2 : g.defined = true := by simpa using hd
    by_cases ht : g.device.type = T.device_type
    · exact Or.inr (Or.inr ⟨hd2, ht, by simp [check_generator, hd2, ht]⟩)
    · refine Or.inr (Or.inl ⟨hd2, ht, ?_⟩)
      have ht2 : T.device_type ≠ g.device.type := fun h => ht h.symm
      simp [check_generator, hd2, ht2]

/-- The generator `get_generator_or_default` hands to `check_generator`: the
supplied one when it is present and defined, the default otherwise. -/
theorem get_generator_or_default.selects (T : GeneratorBackend) (gen : Option Generator)
    (default_gen : Generator) :
    (∃ g, gen = some g ∧ g.defined = true
        ∧ get_generator_or_default T gen default_gen = check_generator T (some g))
    ∨ ((gen = none ∨ ∃ g, gen = some g ∧ g.defined = false)
        ∧ get_generator_or_default T gen default_gen
          = check_generator T (some default_gen)) := by
  cases gen with
  | none => exact Or.inr ⟨Or.inl rfl, rfl⟩
  | some g =>
    by_cases hd : g.defined = true
    · exact Or.inl ⟨g, rfl, hd, by simp [get_generator_or_default, hd]⟩
    · have hd2 : g.defined = false := by simpa using hd
      exact Or.inr ⟨Or.inr ⟨g, rfl, hd2⟩, by simp [get_generator_or_default, hd2]⟩

/-- C13: `check_generator` returns a pointer exactly when the generator is
present, defined and of the device type of the backend, and that pointer is the
downcast of this generator; a present, defined generator of another device type
fails with `DeviceTypeMismatch`.  Every pointer returned by
`get_generator_or_default` is the downcast of the supplied or of the default
generator, which is defined and of the device type of the backend. -/
theorem check_generator_pointer_iff (T : GeneratorBackend) (gen : Option Generator)
    (default_gen : Generator) :
    ((∃ p, check_generator T gen = .ok p)
      ↔ ∃ g, gen = some g ∧ g.defined = true ∧ g.device.type = T.device_type)
    ∧ (∀ p, check_generator T gen = .ok p →
        ∃ g, gen = some g ∧ p = g.get T ∧ g.defined = true
          ∧ g.device.type = T.device_type)
    ∧ (∀ g, gen = some g → g.defined = true → g.device.type ≠ T.device_type →
        check_generator T gen
          = .error (Error.DeviceTypeMismatch T.device_type g.device.type))
    ∧ (∀ p, get_generator_or_default T gen default_gen = .ok p →
        ∃ g, (gen = some g ∨ g = default_gen) ∧ p = g.get T ∧ g.defined = true
          ∧ g.device.type = T.device_type) := by
  have hsome : ∀ (g : Generator) (p : GeneratorImpl), check_generator T (some g) = .ok p →
      p = g.get T ∧ g.defined = true ∧ g.device.type = T.device_type := by
    intro g p hp
    rcases check_generator.some_eq T g with ⟨_, h⟩ | ⟨_, _, h⟩ | ⟨hd, ht, h⟩
    · rw [h] at hp
      cases hp
    · rw [h] at hp
      cases hp
    · rw [h] at hp
      injection hp with hp
      exact ⟨hp.symm, hd, ht⟩
  have hok : ∀ p, check_generator T gen = .ok p →
      ∃ g, gen = some g ∧ p = g.get T ∧ g.defined = true
        ∧ g.device.type = T.device_type := by
    intro p hp
    cases gen with
    | none => cases hp
    | some g => exact ⟨g, rfl, hsome g p hp⟩
  refine ⟨⟨?_, ?_⟩, hok, ?_, ?_⟩
  · rintro ⟨p, hp⟩
    obtain ⟨g, hg, _, hd, ht⟩ := hok p hp
    exact ⟨g, hg, hd, ht⟩
  · rintro ⟨g, rfl, hd, ht⟩
    rcases check_generator.some_eq T g with ⟨hd2, _⟩ | ⟨_, ht2, _⟩ | ⟨_, _, h⟩
    · rw [hd] at hd2
      cases hd2
    · exact absurd ht ht2
    · exact ⟨_, h⟩
  · rintro g rfl hd ht
    rcases check_generator.some_eq T g with ⟨hd2, _⟩ | ⟨_, _, h⟩ | ⟨_, ht2, _⟩
    · rw [hd] at hd2
      cases hd2
    · exact h
    · exact absurd ht2 ht
  · intro p hp
    rcases get_generator_or_default.selects T gen default_gen with ⟨g, hg, _, h⟩ | ⟨_, h⟩
    · rw [h] at hp
      exact ⟨g, Or.inl hg, hsome g p hp⟩
    · rw [h] at hp
      exact ⟨default_gen, Or.inr rfl, hsome default_gen p hp⟩

/-- C13 (instance): a defined CUDA generator checked against the CPU backend
fails with `DeviceTypeMismatch`, and the pointer obtained for a defined CPU
generator is its own implementation. -/
theorem check_generator_pointer_iff_witness :
    check_generator ⟨DeviceType.CPU⟩ (some ⟨true, ⟨DeviceType.CUDA, 0⟩, ⟨64⟩⟩)
      = .error (Error.DeviceTypeMismatch DeviceType.CPU DeviceType.CUDA)
    ∧ ∃ g : Generator, some (⟨true, ⟨DeviceType.CPU, 0⟩, ⟨64⟩⟩ : Generator) = some g
        ∧ (⟨64⟩ : GeneratorImpl) = g.get ⟨DeviceType.CPU⟩ ∧ g.defined = true
        ∧ g.device.type = DeviceType.CPU :=
  ⟨(check_generator_pointer_iff ⟨DeviceType.CPU⟩
      (some ⟨true, ⟨DeviceType.CUDA, 0⟩, ⟨64⟩⟩) ⟨true, ⟨DeviceType.CPU, 0⟩, ⟨1⟩⟩).2.2.1
      _ rfl rfl (by decide),
   (check_generator_pointer_iff ⟨DeviceType.CPU⟩
      (some ⟨true, ⟨DeviceType.CPU, 0⟩, ⟨64⟩⟩) ⟨true, ⟨DeviceType.CPU, 0⟩, ⟨1⟩⟩).2.1
      ⟨64⟩ rfl⟩

/-- C14: with an absent optional, `get_generator_or_default` returns the backend
pointer of the default generator when the default is defined and of the device
type of the backend, and fails with `DeviceTypeMismatch` when the default is
defined but of another device type. -/
theorem get_generator_or_default_absent (T : GeneratorBackend) (default_gen : Generator) :
    (default_gen.defined = true → default_gen.device.type = T.device_type →
      get_generator_or_default T none default_gen = .ok (default_gen.get T))
    ∧ (default_gen.defined = true → default_gen.device.type ≠ T.device_type →
      get_generator_or_default T none default_gen
        = .error (Error.DeviceTypeMismatch T.device_type default_gen.device.type)) := by
  have hsel : get_generator_or_default T none default_gen
      = check_generator T (some default_gen) := rfl
  rw [hsel]
  constructor
  · intro hd ht
    rcases check_generator.some_eq T default_gen with ⟨hd2, _⟩ | ⟨_, ht2, _⟩ | ⟨_, _, h⟩
    · rw [hd] at hd2
      cases hd2
    · exact absurd ht ht2
    · exact h
  · intro hd ht
    rcases check_generator.some_eq T default_gen with ⟨hd2, _⟩ | ⟨_, _, h⟩ | ⟨_, ht2, _⟩
    · rw [hd] at hd2
      cases hd2
    · exact h
    · exact absurd ht2 ht

/-- C14 (instance): the CPU backend with an absent optional and a defined CPU
default gives the pointer of the default; with a defined CUDA default it fails
with `DeviceTypeMismatch`. -/
theorem get_generator_or_default_absent_witness :
    get_generator_or_default ⟨DeviceType.CPU⟩ none ⟨true, ⟨DeviceType.CPU, 0⟩, ⟨128⟩⟩
      = .ok ⟨128⟩
    ∧ get_generator_or_default ⟨DeviceType.CPU⟩ none ⟨true, ⟨DeviceType.CUDA, 0⟩, ⟨128⟩⟩
      = .error (Error.DeviceTypeMismatch DeviceType.CPU DeviceType.CUDA) :=
  ⟨(get_generator_or_default_absent ⟨DeviceType.CPU⟩
      ⟨true, ⟨DeviceType.CPU, 0⟩, ⟨128⟩⟩).1 rfl rfl,
   (get_generator_or_default_absent ⟨DeviceType.CPU⟩
      ⟨true, ⟨DeviceType.CUDA, 0⟩, ⟨128⟩⟩).2 rfl (by decide)⟩

/-- C15: when the optional generator is present and defined,
`get_generator_or_default` is `check_generator` on it, in result and in error, so
a supplied generator of the wrong device type fails with `DeviceTypeMismatch`
whatever the default; otherwise (absent, or present but undefined) it is
`check_generator` on the default, so an undefined default fails with
`UndefinedGenerator`. -/
theorem get_generator_or_default_delegates (T : GeneratorBackend) (gen : Option Generator)
    (default_gen : Generator) :
    (∀ g, gen = some g → g.defined = true →
      get_generator_or_default T gen default_gen = check_generator T gen
      ∧ (g.device.type ≠ T.device_type →
          get_generator_or_default T gen default_gen
            = .error (Error.DeviceTypeMismatch T.device_type g.device.type)))
    ∧ ((gen = none ∨ ∃ g, gen = some g ∧ g.defined = false) →
      get_generator_or_default T gen default_gen = check_generator T (some default_gen)
      ∧ (default_gen.defined = false →
          get_generator_or_default T gen default_gen = .error Error.UndefinedGenerator)) := by
  constructor
  · rintro g rfl hd
    have hsel : get_generator_or_default T (some g) default_gen
        = check_generator T (some g) := by
      simp [get_generator_or_default, hd]
    refine ⟨hsel, ?_⟩
    intro ht
    rw [hsel]
    rcases check_generator.some_eq T g with ⟨hd2, _⟩ | ⟨_, _, h⟩ | ⟨_, ht2, _⟩
    · rw [hd] at hd2
      cases hd2
    · exact h
    · exact absurd ht2 ht
  · intro habs
    have hsel : get_generator_or_default T gen default_gen
        = check_generator T (some default_gen) := by
      rcases habs with rfl | ⟨g, rfl, hd⟩
      · rfl
      · simp [get_generator_or_default, hd]
    refine ⟨hsel, ?_⟩
    intro hd
    rw [hsel]
    simp [check_generator, hd]

/-- C15 (instance): for the CPU backend, a supplied defined CUDA generator fails
with `DeviceTypeMismatch` although the default is a valid CPU generator, and an
undefined supplied generator with an undefined default fails with
`UndefinedGenerator`. -/
theorem get_generator_or_default_delegates_witness :
    get_generator_or_default ⟨DeviceType.CPU⟩ (some ⟨true, ⟨DeviceType.CUDA, 0⟩, ⟨64⟩⟩)
        ⟨true, ⟨DeviceType.CPU, 0⟩, ⟨128⟩⟩
      = .error (Error.DeviceTypeMismatch DeviceType.CPU DeviceType.CUDA)
    ∧ get_generator_or_default ⟨DeviceType.CPU⟩ (some ⟨false, ⟨DeviceType.CPU, 0⟩, ⟨64⟩⟩)
        ⟨false, ⟨DeviceType.CPU, 0⟩, ⟨128⟩⟩
      = .error Error.UndefinedGenerator :=
  ⟨((get_generator_or_default_delegates ⟨DeviceType.CPU⟩
      (some ⟨true, ⟨DeviceType.CUDA, 0⟩, ⟨64⟩⟩) ⟨true, ⟨DeviceType.CPU, 0⟩, ⟨128⟩⟩).1
      _ rfl rfl).2 (by decide),
   ((get_generator_or_default_delegates ⟨DeviceType.CPU⟩
      (some ⟨false, ⟨DeviceType.CPU, 0⟩, ⟨64⟩⟩) ⟨false, ⟨DeviceType.CPU, 0⟩, ⟨128⟩⟩).2
      (Or.inr ⟨_, rfl, rfl⟩)).2 rfl⟩

/-- C20: `get_generator_or_default` never fails with `MissingGenerator`.  Every
failure is either `UndefinedGenerator` or a `DeviceTypeMismatch` for the
generator it selects (the supplied one when present and defined, the default
otherwise), that generator being defined and of another device type than the
backend; it fails with `UndefinedGenerator` exactly when the optional is absent
or undefined and the default is undefined, and with `DeviceTypeMismatch`
whenever the selected generator is defined and of another device type. -/
theorem get_generator_or_default_failures (T : GeneratorBackend) (gen : Option Generator)
    (default_gen : Generator) :
    get_generator_or_default T gen default_gen ≠ .error Error.MissingGenerator
    ∧ (∀ e, get_generator_or_default T gen default_gen = .error e →
        e = Error.UndefinedGenerator
        ∨ ∃ g, ((gen = some g ∧ g.defined = true)
              ∨ ((gen = none ∨ ∃ h, gen = some h ∧ h.defined = false) ∧ g = default_gen))
            ∧ g.defined = true ∧ g.device.type ≠ T.device_type
            ∧ e = Error.DeviceTypeMismatch T.device_type g.device.type)
    ∧ (get_generator_or_default T gen default_gen = .error Error.UndefinedGenerator
        ↔ ((gen = none ∨ ∃ g, gen = some g ∧ g.defined = false)
            ∧ default_gen.defined = false))
    ∧ (∀ g, ((gen = some g ∧ g.defined = true)
              ∨ ((gen = none ∨ ∃ h, gen = some h ∧ h.defined = false) ∧ g = default_gen)) →
        g.defined = true → g.device.type ≠ T.device_type →
        get_generator_or_default T gen default_gen
          = .error (Error.DeviceTypeMismatch T.device_type g.device.type)) := by
  have hexcl : ∀ g : Generator, gen = some g → g.defined = true →
      ¬ (gen = none ∨ ∃ h, gen = some h ∧ h.defined = false) := by
    rintro g rfl hd (h | ⟨h, hh, hd2⟩)
    · cases h
    · injection hh with hh
      subst hh
      rw [hd] at hd2
      cases hd2
  refine ⟨?_, ?_, ⟨?_, ?_⟩, ?_⟩
  · intro hc
    rcases get_generator_or_default.selects T gen default_gen with ⟨g, _, _, h⟩ | ⟨_, h⟩
    · rw [h] at hc
      rcases check_generator.some_eq T g with ⟨_, h2⟩ | ⟨_, _, h2⟩ | ⟨_, _, h2⟩ <;>
      · rw [h2] at hc
        cases hc
    · rw [h] at hc
      rcases check_generator.some_eq T default_gen with ⟨_, h2⟩ | ⟨_, _, h2⟩ | ⟨_, _, h2⟩ <;>
      · rw [h2] at hc
        cases hc
  · intro e he
    rcases get_generator_or_default.selects T gen default_gen with ⟨g, hg, hd, h⟩ | ⟨habs, h⟩
    · rw [h] at he
      rcases check_generator.some_eq T g with ⟨_, h2⟩ | ⟨hd2, ht, h2⟩ | ⟨_, _, h2⟩
      · rw [h2] at he
        injection he with he
        exact Or.inl he.symm
      · rw [h2] at he
        injection he with he
        exact Or.inr ⟨g, Or.inl ⟨hg, hd⟩, hd2, ht, he.symm⟩
      · rw [h2] at he
        cases he
    · rw [h] at he
      rcases check_generator.some_eq T default_gen with ⟨_, h2⟩ | ⟨hd2, ht, h2⟩ | ⟨_, _, h2⟩
      · rw [h2] at he
        injection he with he
        exact Or.inl he.symm
      · rw [h2] at he
        injection he with he
        exact Or.inr ⟨default_gen, Or.inr ⟨habs, rfl⟩, hd2, ht, he.symm⟩
      · rw [h2] at he
        cases he
  · intro he
    rcases get_generator_or_default.selects T gen default_gen with ⟨g, _, hd, h⟩ | ⟨habs, h⟩
    · rw [h] at he
      rcases check_generator.some_eq T g with ⟨hd2, _⟩ | ⟨_, _, h2⟩ | ⟨_, _, h2⟩
      · rw [hd] at hd2
        cases hd2
      · rw [h2] at he
        cases he
      · rw [h2] at he
        cases he
    · refine ⟨habs, ?_⟩
      rw [h] at he
      rcases check_generator.some_eq T default_gen with ⟨hd2, _⟩ | ⟨_, _, h2⟩ | ⟨_, _, h2⟩
      · exact hd2
      · rw [h2] at he
        cases he
      · rw [h2] at he
        cases he
  · rintro ⟨habs, hd⟩
    rcases get_generator_or_default.selects T gen default_gen with ⟨g, hg, hd2, _⟩ | ⟨_, h⟩
    · exact absurd habs (hexcl g hg hd2)
    · rw [h]
      simp [check_generator, hd]
  · intro g hsel hd ht
    have hcheck : check_generator T (some g)
        = .error (Error.DeviceTypeMismatch T.device_type g.device.type) := by
      rcases check_generator.some_eq T g with ⟨hd2, _⟩ | ⟨_, _, h2⟩ | ⟨_, ht2, _⟩
      · rw [hd] at hd2
        cases hd2
      · exact h2
      · exact absurd ht2 ht
    rcases get_generator_or_default.selects T gen default_gen with ⟨g2, hg2, hd2, h⟩ | ⟨habs, h⟩
    · rcases hsel with ⟨hg, _⟩ | ⟨habs, _⟩
      · rw [hg] at hg2
        injection hg2 with hg2
        subst hg2
        rw [h]
        exact hcheck
      · exact absurd habs (hexcl g2 hg2 hd2)
    · rcases hsel with ⟨hg, hdg⟩ | ⟨_, rfl⟩
      · exact absurd habs (hexcl g hg hdg)
      · rw [h]
        exact hcheck

/-- C20 (instance): for the CPU backend, an absent optional with an undefined
default fails with `UndefinedGenerator`, and an absent optional with a defined
CUDA default fails with `DeviceTypeMismatch`. -/
theorem get_generator_or_default_failures_witness :
    get_generator_or_default ⟨DeviceType.CPU⟩ none ⟨false, ⟨DeviceType.CPU, 0⟩, ⟨128⟩⟩
      = .error Error.UndefinedGenerator
    ∧ get_generator_or_default ⟨DeviceType.CPU⟩ none ⟨true, ⟨DeviceType.CUDA, 0⟩, ⟨128⟩⟩
      = .error (Error.DeviceTypeMismatch DeviceType.CPU DeviceType.CUDA) :=
  ⟨(get_generator_or_default_failures ⟨DeviceType.CPU⟩ none
      ⟨false, ⟨DeviceType.CPU, 0⟩, ⟨128⟩⟩).2.2.1.2 ⟨Or.inl rfl, rfl⟩,
   (get_generator_or_default_failures ⟨DeviceType.CPU⟩ none
      ⟨true, ⟨DeviceType.CUDA, 0⟩, ⟨128⟩⟩).2.2.2
      _ (Or.inr ⟨Or.inl rfl, rfl⟩) rfl (by decide)⟩

/-! ## Theorems: device and scalar type diagnostics of `checked_dense_tensor_unwrap` -/

/-- C16: for a tensor that does not take the null branch and is `Strided`, a
device type other than the required one gives `DeviceMismatch` with the required
and the actual device type, whatever the scalar type; a matching device type
with another scalar type gives `DtypeMismatch` with the required and the actual
scalar type.  Every failure of `checked_dense_tensor_unwrap` carries the
argument position, name and API name that were passed in. -/
theorem checked_dense_tensor_unwrap_device_then_dtype (expr : Tensor) (name : String)
    (pos : Int) (api : String) (allowNull : Bool) (device_type : DeviceType)
    (scalar_type : ScalarType) :
    ((allowNull = false ∨ expr.defined = true) → expr.layout = Layout.Strided →
      (expr.device.type ≠ device_type →
        checked_dense_tensor_unwrap expr name pos api allowNull device_type scalar_type
          = .error (Error.DeviceMismatch device_type expr.device.type
              (ArgRef.argument pos name api)))
      ∧ (expr.device.type = device_type → expr.scalar_type ≠ scalar_type →
        checked_dense_tensor_unwrap expr name pos api allowNull device_type scalar_type
          = .error (Error.DtypeMismatch scalar_type expr.scalar_type
              (ArgRef.argument pos name api))))
    ∧ (∀ e, checked_dense_tensor_unwrap expr name pos api allowNull device_type scalar_type
          = .error e →
        e = Error.LayoutMismatch expr.layout (ArgRef.argument pos name api)
        ∨ e = Error.DeviceMismatch device_type expr.device.type (ArgRef.argument pos name api)
        ∨ e = Error.DtypeMismatch scalar_type expr.scalar_type
            (ArgRef.argument pos name api)) := by
  constructor
  · intro hnull hlayout
    have h1 : ¬ ((allowNull && !expr.defined) = true) := by
      rcases hnull with h | h <;> simp [h]
    constructor
    · intro hdev
      simp [checked_dense_tensor_unwrap, h1, hlayout, hdev]
    · intro hdev hst
      simp [checked_dense_tensor_unwrap, h1, hlayout, hdev, hst]
  · intro e he
    unfold checked_dense_tensor_unwrap at he
    split_ifs at he with h1 h2 h3 h4
    · injection he with he
      exact Or.inl he.symm
    · injection he with he
      exact Or.inr (Or.inl he.symm)
    · injection he with he
      exact Or.inr (Or.inr he.symm)

/-- C16 (instance): with CPU/Float required, a defined strided CUDA tensor of
scalar type `Long` fails with `DeviceMismatch`, and a defined strided CPU tensor
of scalar type `Long` fails with `DtypeMismatch`. -/
theorem checked_dense_tensor_unwrap_device_then_dtype_witness :
    checked_dense_tensor_unwrap
        ⟨true, Layout.Strided, ⟨DeviceType.CUDA, 0⟩, ScalarType.Long, ⟨8⟩⟩
        "self" 2 "addmm" false DeviceType.CPU ScalarType.Float
      = .error (Error.DeviceMismatch DeviceType.CPU DeviceType.CUDA
          (ArgRef.argument 2 "self" "addmm"))
    ∧ checked_dense_tensor_unwrap
        ⟨true, Layout.Strided, ⟨DeviceType.CPU, 0⟩, ScalarType.Long, ⟨8⟩⟩
        "self" 2 "addmm" false DeviceType.CPU ScalarType.Float
      = .error (Error.DtypeMismatch ScalarType.Float ScalarType.Long
          (ArgRef.argument 2 "self" "addmm")) :=
  ⟨((checked_dense_tensor_unwrap_device_then_dtype
      ⟨true, Layout.Strided, ⟨DeviceType.CUDA, 0⟩, ScalarType.Long, ⟨8⟩⟩
      "self" 2 "addmm" false DeviceType.CPU ScalarType.Float).1 (Or.inl rfl) rfl).1
      (by decide),
   ((checked_dense_tensor_unwrap_device_then_dtype
      ⟨true, Layout.Strided, ⟨DeviceType.CPU, 0⟩, ScalarType.Long, ⟨8⟩⟩
      "self" 2 "addmm" false DeviceType.CPU ScalarType.Float).1 (Or.inl rfl) rfl).2
      rfl (by decide)⟩

/-! ## Theorems: `prod_intlist` on narrower element types -/

/-- An `int32_t` value is an `int64_t` value. -/
theorem isInt64_of_isInt32 (x : Int) (hx : isInt32 x) : isInt64 x := by
  unfold isInt32 at hx
  unfold isInt64
  constructor <;> omega

/-- On `int32_t` elements the conversion to `int64_t` keeps every value, so the
fold with conversion is the fold of `mul64`. -/
theorem foldl_mul64_toInt64 (l : List Int) (h32 : ∀ x ∈ l, isInt32 x) :
    ∀ init : Int, l.foldl (fun acc x => mul64 acc (toInt64 x)) init = l.foldl mul64 init := by
  induction l with
  | nil => intro init; rfl
  | cons x l ih =>
    intro init
    have hx : toInt64 x = x :=
      wrapInt64_of_isInt64 x (isInt64_of_isInt32 x (h32 x (List.mem_cons_self _ _)))
    simp only [List.foldl_cons, hx]
    exact ih (fun y hy => h32 y (List.mem_cons_of_mem _ hy)) _

/-- C19: on a container of `int32_t` values `prod_intlist` converts each element
to 64 bits before multiplying, so its result is `prod_intlist` of the same
values as `int64_t`; it is the exact product whenever that fits in the
`int64_t` range, even when it does not fit in 32 bits (`[65536, 65536]` gives
`4294967296`, where a 32-bit accumulator would hold 0).  The iterator-range
overload over the whole sequence returns the value of the container overload. -/
theorem prod_intlist_int32_widening (container : List Int)
    (h32 : ∀ x ∈ container, isInt32 x) :
    prod_intlist.container container = prod_intlist container
    ∧ (isInt64 container.prod → prod_intlist.container container = container.prod)
    ∧ prod_intlist.range container 0 container.length = prod_intlist.container container
    ∧ (∀ first last : Nat, prod_intlist.range container first last
        = prod_intlist.container ((container.drop first).take (last - first)))
    ∧ prod_intlist.container [65536, 65536] = 4294967296
    ∧ wrapInt32 (65536 * 65536) = 0 := by
  have h1 : prod_intlist.container container = prod_intlist container := by
    simp only [prod_intlist.container, accumulate_multiplies, prod_intlist, List.drop_zero,
      Nat.sub_zero, List.take_length]
    exact foldl_mul64_toInt64 container h32 1
  refine ⟨h1, ?_, rfl, ?_, ?_, ?_⟩
  · intro hp
    rw [h1, prod_intlist_eq_wrap, wrapInt64_of_isInt64 _ hp]
  · intro first last
    simp only [prod_intlist.range, prod_intlist.container, accumulate_multiplies,
      List.drop_zero, Nat.sub_zero, List.take_length]
  · simp only [prod_intlist.container, accumulate_multiplies, List.drop_zero, Nat.sub_zero,
      List.take_length, List.foldl_cons, List.foldl_nil, mul64, toInt64, wrapInt64]
    norm_num
  · unfold wrapInt32
    norm_num

/-- C19 (instance): `[65536, 65536]` as `int32_t` values gives `4294967296`. -/
theorem prod_intlist_int32_widening_witness :
    prod_intlist.container [65536, 65536] = 4294967296
    ∧ prod_intlist.range [65536, 65536] 0 2 = prod_intlist.container [65536, 65536] := by
  have h := prod_intlist_int32_widening [65536, 65536]
    (by intro x hx; unfold isInt32; simp at hx; subst hx; norm_num)
  refine ⟨?_, h.2.2.1⟩
  rw [h.2.1 (by unfold isInt64; norm_num)]
  norm_num

/-! ## Theorems: `checked_dense_tensor_list_unwrap` -/

/-- An element passes the three checks exactly when it has no first failure. -/
theorem checked_dense_tensor_list_unwrap.firstFailure_eq_none (name : String) (pos : Int)
    (device_type : DeviceType) (scalar_type : ScalarType) (expr : Tensor) (i : Nat) :
    checked_dense_tensor_list_unwrap.firstFailure name pos device_type scalar_type expr i = none
      ↔ (expr.layout = Layout.Strided ∧ expr.device.type = device_type
          ∧ expr.scalar_type = scalar_type) := by
  unfold checked_dense_tensor_list_unwrap.firstFailure
  by_cases h1 : expr.layout = Layout.Strided <;>
  by_cases h2 : expr.device.type = device_type <;>
  by_cases h3 : expr.scalar_type = scalar_type <;> simp [h1, h2, h3]

/-- The kind and the fields of a first failure: the first check, in the order
layout, device type, scalar type, which the element fails. -/
theorem checked_dense_tensor_list_unwrap.firstFailure_eq_some (name : String) (pos : Int)
    (device_type : DeviceType) (scalar_type : ScalarType) (expr : Tensor) (i : Nat)
    (e : Error)
    (he : checked_dense_tensor_list_unwrap.firstFailure name pos device_type scalar_type
      expr i = some e) :
    (expr.layout ≠ Layout.Strided
        ∧ e = Error.LayoutMismatch expr.layout (ArgRef.sequenceElement i pos name))
    ∨ (expr.layout = Layout.Strided ∧ expr.device.type ≠ device_type
        ∧ e = Error.DeviceMismatch device_type expr.device.type
            (ArgRef.sequenceElement i pos name))
    ∨ (expr.layout = Layout.Strided ∧ expr.device.type = device_type
        ∧ expr.scalar_type ≠ scalar_type
        ∧ e = Error.DtypeMismatch scalar_type expr.scalar_type
            (ArgRef.sequenceElement i pos name)) := by
  unfold checked_dense_tensor_list_unwrap.firstFailure at he
  split_ifs at he with h1 h2 h3
  · injection he with he
    exact Or.inl ⟨h1, he.symm⟩
  · injection he with he
    exact Or.inr (Or.inl ⟨not_not.mp h1, h2, he.symm⟩)
  · injection he with he
    exact Or.inr (Or.inr ⟨not_not.mp h1, not_not.mp h2, h3, he.symm⟩)

/-- One iteration on an element that passes the three checks: its handle is
appended and the counter is incremented modulo `2 ^ 32`. -/
theorem checked_dense_tensor_list_unwrap.loop_step_pass (tensors : List Tensor)
    (name : String) (pos : Int) (device_type : DeviceType) (scalar_type : ScalarType)
    (fuel i : Nat) (unwrapped : List TensorImpl) (hi : i < tensors.length)
    (hpass : tensors[i].layout = Layout.Strided ∧ tensors[i].device.type = device_type
      ∧ tensors[i].scalar_type = scalar_type) :
    checked_dense_tensor_list_unwrap.loop tensors name pos device_type scalar_type
        (fuel + 1) i unwrapped
      = checked_dense_tensor_list_unwrap.loop tensors name pos device_type scalar_type
          fuel ((i + 1) % 2 ^ 32) (unwrapped ++ [tensors[i].unsafeGetTensorImpl]) := by
  simp [checked_dense_tensor_list_unwrap.loop, hi, hpass.1, hpass.2.1, hpass.2.2]

/-- One iteration on an element that fails a check: the loop ends with the
diagnostic of its first failure. -/
theorem checked_dense_tensor_list_unwrap.loop_step_fail (tensors : List Tensor)
    (name : String) (pos : Int) (device_type : DeviceType) (scalar_type : ScalarType)
    (fuel i : Nat) (unwrapped : List TensorImpl) (hi : i < tensors.length) (e : Error)
    (he : checked_dense_tensor_list_unwrap.firstFailure name pos device_type scalar_type
      tensors[i] i = some e) :
    checked_dense_tensor_list_unwrap.loop tensors name pos device_type scalar_type
        (fuel + 1) i unwrapped
      = some (.error e) := by
  rcases checked_dense_tensor_list_unwrap.firstFailure_eq_some name pos device_type
      scalar_type tensors[i] i e he with ⟨h1, rfl⟩ | ⟨h1, h2, rfl⟩ | ⟨h1, h2, h3, rfl⟩
  · simp [checked_dense_tensor_list_unwrap.loop, hi, h1]
  · simp [checked_dense_tensor_list_unwrap.loop, hi, h1, h2]
  · simp [checked_dense_tensor_list_unwrap.loop, hi, h1, h2, h3]

/-- The test `i < tensors.size()` fails: the loop ends and the vector is
returned. -/
theorem checked_dense_tensor_list_unwrap.loop_exit (tensors : List Tensor)
    (name : String) (pos : Int) (device_type : DeviceType) (scalar_type : ScalarType)
    (fuel i : Nat) (unwrapped : List TensorImpl) (hi : ¬ i < tensors.length) :
    checked_dense_tensor_list_unwrap.loop tensors name pos device_type scalar_type
        (fuel + 1) i unwrapped
      = some (.ok unwrapped) := by
  simp [checked_dense_tensor_list_unwrap.loop, hi]

/-- A result reached within some bound is the result within every larger bound. -/
theorem checked_dense_tensor_list_unwrap.loop_mono (tensors : List Tensor)
    (name : String) (pos : Int) (device_type : DeviceType) (scalar_type : ScalarType) :
    ∀ (fuel i : Nat) (unwrapped : List TensorImpl) (res : Except Error (List TensorImpl)),
      checked_dense_tensor_list_unwrap.loop tensors name pos device_type scalar_type
          fuel i unwrapped = some res →
      ∀ fuel2, fuel ≤ fuel2 →
        checked_dense_tensor_list_unwrap.loop tensors name pos device_type scalar_type
          fuel2 i unwrapped = some res := by
  intro fuel
  induction fuel with
  | zero =>
    intro i unwrapped res h
    simp [checked_dense_tensor_list_unwrap.loop] at h
  | succ fuel ih =>
    intro i unwrapped res h fuel2 hle
    obtain ⟨f2, rfl⟩ : ∃ f2, fuel2 = f2 + 1 := ⟨fuel2 - 1, by omega⟩
    by_cases hi : i < tensors.length
    · cases hff : checked_dense_tensor_list_unwrap.firstFailure name pos device_type
          scalar_type tensors[i] i with
      | none =>
        have hpass := (checked_dense_tensor_list_unwrap.firstFailure_eq_none name pos
          device_type scalar_type tensors[i] i).mp hff
        rw [checked_dense_tensor_list_unwrap.loop_step_pass tensors name pos device_type
          scalar_type fuel i unwrapped hi hpass] at h
        rw [checked_dense_tensor_list_unwrap.loop_step_pass tensors name pos device_type
          scalar_type f2 i unwrapped hi hpass]
        exact ih _ _ res h f2 (by omega)
      | some e =>
        rw [checked_dense_tensor_list_unwrap.loop_step_fail tensors name pos device_type
          scalar_type fuel i unwrapped hi e hff] at h
        rw [checked_dense_tensor_list_unwrap.loop_step_fail tensors name pos device_type
          scalar_type f2 i unwrapped hi e hff]
        exact h
    · rw [checked_dense_tensor_list_unwrap.loop_exit tensors name pos device_type
        scalar_type fuel i unwrapped hi] at h
      rw [checked_dense_tensor_list_unwrap.loop_exit tensors name pos device_type
        scalar_type f2 i unwrapped hi]
      exact h

/-- On a list of fewer than `2 ^ 32` tensors whose elements from index `i` on
pass the three checks, the loop started at `i` ends, within one more evaluation
of its test than there are elements left, with the handles of these elements
appended in order. -/
theorem checked_dense_tensor_list_unwrap.loop_ok (tensors : List Tensor)
    (name : String) (pos : Int) (device_type : DeviceType) (scalar_type : ScalarType)
    (hlen : tensors.length < 2 ^ 32) :
    ∀ (left i fuel : Nat) (unwrapped : List TensorImpl),
      i + left = tensors.length → left < fuel →
      (∀ j, i ≤ j → ∀ t, tensors[j]? = some t →
        t.layout = Layout.Strided ∧ t.device.type = device_type
          ∧ t.scalar_type = scalar_type) →
      checked_dense_tensor_list_unwrap.loop tensors name pos device_type scalar_type
          fuel i unwrapped
        = some (.ok (unwrapped ++ (tensors.drop i).map Tensor.unsafeGetTensorImpl)) := by
  intro left
  induction left with
  | zero =>
    intro i fuel unwrapped hi hfuel _
    obtain ⟨f, rfl⟩ : ∃ f, fuel = f + 1 := ⟨fuel - 1, by omega⟩
    rw [checked_dense_tensor_list_unwrap.loop_exit tensors name pos device_type scalar_type
      f i unwrapped (by omega)]
    rw [List.drop_eq_nil_of_le (by omega)]
    simp
  | succ left ih =>
    intro i fuel unwrapped hi hfuel hall
    obtain ⟨f, rfl⟩ : ∃ f, fuel = f + 1 := ⟨fuel - 1, by omega⟩
    have hlt : i < tensors.length := by omega
    have hpass := hall i (Nat.le_refl i) tensors[i] (List.getElem?_eq_getElem hlt)
    rw [checked_dense_tensor_list_unwrap.loop_step_pass tensors name pos device_type
      scalar_type f i unwrapped hlt hpass]
    have hmod : (i + 1) % 2 ^ 32 = i + 1 := Nat.mod_eq_of_lt (by omega)
    rw [hmod, ih (i + 1) f _ (by omega) (by omega)
      (fun j hj t ht => hall j (by omega) t ht)]
    rw [List.drop_eq_getElem_cons hlt]
    simp only [List.map_cons, List.append_assoc, List.singleton_append]

/-- When the element at an index `k < 2 ^ 32` fails a check and every element
before it passes, the loop started at an index `i ≤ k` ends, within `k - i + 1`
evaluations of its test, with the diagnostic of the first failure of element
`k` at sequence index `k`. -/
theorem checked_dense_tensor_list_unwrap.loop_error (tensors : List Tensor)
    (name : String) (pos : Int) (device_type : DeviceType) (scalar_type : ScalarType)
    (k : Nat) (hk : k < tensors.length) (hk32 : k < 2 ^ 32) (e : Error)
    (he : checked_dense_tensor_list_unwrap.firstFailure name pos device_type scalar_type
      tensors[k] k = some e)
    (hbefore : ∀ j < k, ∀ t, tensors[j]? = some t →
      t.layout = Layout.Strided ∧ t.device.type = device_type
        ∧ t.scalar_type = scalar_type) :
    ∀ (dist i fuel : Nat) (unwrapped : List TensorImpl),
      i + dist = k → dist < fuel →
      checked_dense_tensor_list_unwrap.loop tensors name pos device_type scalar_type
          fuel i unwrapped
        = some (.error e) := by
  intro dist
  induction dist with
  | zero =>
    intro i fuel unwrapped hi hfuel
    obtain ⟨f, rfl⟩ : ∃ f, fuel = f + 1 := ⟨fuel - 1, by omega⟩
    have hik : i = k := by omega
    subst hik
    exact checked_dense_tensor_list_unwrap.loop_step_fail tensors name pos device_type
      scalar_type f i unwrapped hk e he
  | succ dist ih =>
    intro i fuel unwrapped hi hfuel
    obtain ⟨f, rfl⟩ : ∃ f, fuel = f + 1 := ⟨fuel - 1, by omega⟩
    have hlt : i < tensors.length := by omega
    have hpass := hbefore i (by omega) tensors[i] (List.getElem?_eq_getElem hlt)
    rw [checked_dense_tensor_list_unwrap.loop_step_pass tensors name pos device_type
      scalar_type f i unwrapped hlt hpass]
    have hmod : (i + 1) % 2 ^ 32 = i + 1 := Nat.mod_eq_of_lt (by omega)
    rw [hmod]
    exact ih (i + 1) f _ (by omega) (by omega)

/-- On a list of `2 ^ 32` or more tensors whose first `2 ^ 32` elements pass the
three checks the loop never ends: the counter stays below `2 ^ 32`, hence below
`tensors.size()`, and only visits passing elements. -/
theorem checked_dense_tensor_list_unwrap.loop_diverges (tensors : List Tensor)
    (name : String) (pos : Int) (device_type : DeviceType) (scalar_type : ScalarType)
    (hlen : 2 ^ 32 ≤ tensors.length)
    (hpass : ∀ j < 2 ^ 32, ∀ t, tensors[j]? = some t →
      t.layout = Layout.Strided ∧ t.device.type = device_type
        ∧ t.scalar_type = scalar_type) :
    ∀ (fuel i : Nat) (unwrapped : List TensorImpl), i < 2 ^ 32 →
      checked_dense_tensor_list_unwrap.loop tensors name pos device_type scalar_type
          fuel i unwrapped = none := by
  intro fuel
  induction fuel with
  | zero => intro i unwrapped _; rfl
  | succ fuel ih =>
    intro i unwrapped hi
    have hlt : i < tensors.length := by omega
    have hp := hpass i hi tensors[i] (List.getElem?_eq_getElem hlt)
    rw [checked_dense_tensor_list_unwrap.loop_step_pass tensors name pos device_type
      scalar_type fuel i unwrapped hlt hp]
    exact ih _ _ (Nat.mod_lt _ (by norm_num))

/-- When some element at an index below `2 ^ 32` fails a check, the function
ends with the first failure of the element at the smallest failing index `k`,
within `k + 1` evaluations of the loop test. -/
theorem checked_dense_tensor_list_unwrap.error_of_reachable_failure (tensors : List Tensor)
    (name : String) (pos : Int) (device_type : DeviceType) (scalar_type : ScalarType)
    (hbad : ∃ i < 2 ^ 32, ∃ t, tensors[i]? = some t
      ∧ ¬ (t.layout = Layout.Strided ∧ t.device.type = device_type
        ∧ t.scalar_type = scalar_type)) :
    ∃ (k : Nat) (expr : Tensor) (e : Error), tensors[k]? = some expr ∧ k < 2 ^ 32
      ∧ (∀ j < k, ∀ t, tensors[j]? = some t →
          t.layout = Layout.Strided ∧ t.device.type = device_type
            ∧ t.scalar_type = scalar_type)
      ∧ checked_dense_tensor_list_unwrap.firstFailure name pos device_type scalar_type
          expr k = some e
      ∧ ∀ fuel, k < fuel →
          checked_dense_tensor_list_unwrap tensors name pos device_type scalar_type fuel
            = some (.error e) := by
  classical
  obtain ⟨i, hi32, hi⟩ := hbad
  have hex : ∃ k : Nat, ∃ t : Tensor, tensors[k]? = some t
      ∧ ¬ (t.layout = Layout.Strided ∧ t.device.type = device_type
        ∧ t.scalar_type = scalar_type) := ⟨i, hi⟩
  obtain ⟨expr, hexpr, hfail⟩ := Nat.find_spec hex
  have hk32 : Nat.find hex < 2 ^ 32 := lt_of_le_of_lt (Nat.find_min' hex hi) hi32
  have hbefore : ∀ j < Nat.find hex, ∀ t, tensors[j]? = some t →
      t.layout = Layout.Strided ∧ t.device.type = device_type
        ∧ t.scalar_type = scalar_type := by
    intro j hj t ht
    by_contra hnot
    exact Nat.find_min hex hj ⟨t, ht, hnot⟩
  obtain ⟨hk, hget⟩ := List.getElem?_eq_some.mp hexpr
  cases hff : checked_dense_tensor_list_unwrap.firstFailure name pos device_type
      scalar_type expr (Nat.find hex) with
  | none =>
    exact absurd ((checked_dense_tensor_list_unwrap.firstFailure_eq_none name pos
      device_type scalar_type expr (Nat.find hex)).mp hff) hfail
  | some e =>
    refine ⟨Nat.find hex, expr, e, hexpr, hk32, hbefore, hff, ?_⟩
    intro fuel hfuel
    have he : checked_dense_tensor_list_unwrap.firstFailure name pos device_type
        scalar_type tensors[Nat.find hex] (Nat.find hex) = some e := by
      rw [hget]
      exact hff
    exact checked_dense_tensor_list_unwrap.loop_error tensors name pos device_type
      scalar_type (Nat.find hex) hk hk32 e he hbefore (Nat.find hex) 0 fuel []
      (by omega) hfuel

/-- Lists of fewer than `2 ^ 32` tensors: `checked_dense_tensor_list_unwrap`
always ends, within `tensors.size() + 1` evaluations of the loop test; it
succeeds exactly when every element has layout `Strided`, the required device
type and the required scalar type; and a successful result has the length of
the input and holds at each index the raw handle of the tensor at that index. -/
theorem checked_dense_tensor_list_unwrap_short_list (tensors : List Tensor) (name : String)
    (pos : Int) (device_type : DeviceType) (scalar_type : ScalarType)
    (hlen : tensors.length < 2 ^ 32) :
    ((∃ fuel r, checked_dense_tensor_list_unwrap tensors name pos device_type scalar_type
          fuel = some (.ok r))
      ↔ ∀ t ∈ tensors, t.layout = Layout.Strided ∧ t.device.type = device_type
          ∧ t.scalar_type = scalar_type)
    ∧ (∀ fuel r, checked_dense_tensor_list_unwrap tensors name pos device_type scalar_type
          fuel = some (.ok r) →
        r.length = tensors.length
        ∧ ∀ (i : Nat) (hi : i < tensors.length),
            r[i]? = some (tensors[i].unsafeGetTensorImpl))
    ∧ ((∀ t ∈ tensors, t.layout = Layout.Strided ∧ t.device.type = device_type
          ∧ t.scalar_type = scalar_type) →
        ∀ fuel, tensors.length < fuel →
          checked_dense_tensor_list_unwrap tensors name pos device_type scalar_type fuel
            = some (.ok (tensors.map Tensor.unsafeGetTensorImpl)))
    ∧ (∀ fuel, tensors.length < fuel →
        ∃ res, checked_dense_tensor_list_unwrap tensors name pos device_type scalar_type
          fuel = some res) := by
  have hgood : (∀ t ∈ tensors, t.layout = Layout.Strided ∧ t.device.type = device_type
        ∧ t.scalar_type = scalar_type) →
      ∀ fuel, tensors.length < fuel →
        checked_dense_tensor_list_unwrap tensors name pos device_type scalar_type fuel
          = some (.ok (tensors.map Tensor.unsafeGetTensorImpl)) := by
    intro hall fuel hfuel
    have h := checked_dense_tensor_list_unwrap.loop_ok tensors name pos device_type
      scalar_type hlen tensors.length 0 fuel [] (by omega) hfuel
      (fun j _ t ht => hall t (List.getElem?_mem ht))
    simpa [checked_dense_tensor_list_unwrap] using h
  have hbadcase : ¬ (∀ t ∈ tensors, t.layout = Layout.Strided ∧ t.device.type = device_type
        ∧ t.scalar_type = scalar_type) →
      ∃ k e, k < tensors.length ∧ ∀ fuel, k < fuel →
        checked_dense_tensor_list_unwrap tensors name pos device_type scalar_type fuel
          = some (.error e) := by
    intro hnot
    have hbad : ∃ i < 2 ^ 32, ∃ t, tensors[i]? = some t
        ∧ ¬ (t.layout = Layout.Strided ∧ t.device.type = device_type
          ∧ t.scalar_type = scalar_type) := by
      by_contra hcon
      apply hnot
      intro t ht
      by_contra hfail
      obtain ⟨i, hi, hget⟩ := List.getElem_of_mem ht
      exact hcon ⟨i, by omega, t, by rw [List.getElem?_eq_getElem hi, hget], hfail⟩
    obtain ⟨k, expr, e, hk, _, _, _, herr⟩ :=
      checked_dense_tensor_list_unwrap.error_of_reachable_failure tensors name pos
        device_type scalar_type hbad
    exact ⟨k, e, (List.getElem?_eq_some.mp hk).1, herr⟩
  have hall_of_ok : ∀ fuel r,
      checked_dense_tensor_list_unwrap tensors name pos device_type scalar_type fuel
        = some (.ok r) →
      ∀ t ∈ tensors, t.layout = Layout.Strided ∧ t.device.type = device_type
        ∧ t.scalar_type = scalar_type := by
    intro fuel r hr
    by_contra hnot
    obtain ⟨k, e, _, herr⟩ := hbadcase hnot
    have h1 := checked_dense_tensor_list_unwrap.loop_mono tensors name pos device_type
      scalar_type fuel 0 [] _ hr (fuel + (k + 1)) (by omega)
    have h2 := herr (fuel + (k + 1)) (by omega)
    unfold checked_dense_tensor_list_unwrap at h2
    rw [h1] at h2
    cases h2
  refine ⟨⟨?_, ?_⟩, ?_, hgood, ?_⟩
  · rintro ⟨fuel, r, hr⟩
    exact hall_of_ok fuel r hr
  · intro hall
    exact ⟨tensors.length + 1, _, hgood hall _ (by omega)⟩
  · intro fuel r hr
    have hall := hall_of_ok fuel r hr
    have h1 := checked_dense_tensor_list_unwrap.loop_mono tensors name pos device_type
      scalar_type fuel 0 [] _ hr (fuel + (tensors.length + 1)) (by omega)
    have h2 := hgood hall (fuel + (tensors.length + 1)) (by omega)
    unfold checked_dense_tensor_list_unwrap at h2
    rw [h1] at h2
    injection h2 with h2
    injection h2 with h2
    subst h2
    refine ⟨by simp, ?_⟩
    intro i hi
    simp [List.getElem?_eq_getElem hi]
  · intro fuel hfuel
    by_cases hall : ∀ t ∈ tensors, t.layout = Layout.Strided ∧ t.device.type = device_type
        ∧ t.scalar_type = scalar_type
    · exact ⟨_, hgood hall fuel hfuel⟩
    · obtain ⟨k, e, hk, herr⟩ := hbadcase hall
      exact ⟨_, herr fuel (by omega)⟩

/-- Instance of the short-list theorem: two strided CPU float tensors are
unwrapped, within three evaluations of the loop test, to their two handles in
order. -/
theorem checked_dense_tensor_list_unwrap_short_list_witness :
    checked_dense_tensor_list_unwrap
        [⟨true, Layout.Strided, ⟨DeviceType.CPU, 0⟩, ScalarType.Float, ⟨16⟩⟩,
         ⟨true, Layout.Strided, ⟨DeviceType.CPU, 0⟩, ScalarType.Float, ⟨32⟩⟩]
        "tensors" 1 DeviceType.CPU ScalarType.Float 3
      = some (.ok [⟨16⟩, ⟨32⟩]) :=
  (checked_dense_tensor_list_unwrap_short_list
    [⟨true, Layout.Strided, ⟨DeviceType.CPU, 0⟩, ScalarType.Float, ⟨16⟩⟩,
     ⟨true, Layout.Strided, ⟨DeviceType.CPU, 0⟩, ScalarType.Float, ⟨32⟩⟩]
    "tensors" 1 DeviceType.CPU ScalarType.Float (by norm_num)).2.2.1
    (by
      intro t ht
      simp only [List.mem_cons, List.mem_singleton, List.not_mem_nil, or_false] at ht
      rcases ht with rfl | rfl <;> exact ⟨rfl, rfl, rfl⟩)
    3 (by decide)

/-- First failures at an index below `2 ^ 32`: when some element at such an
index fails a check, `checked_dense_tensor_list_unwrap` ends with an error that
names the smallest index `k` whose element fails a check, and whose kind is the
first check (layout, then device, then scalar type) which that element fails.
Instance: in a list of three whose elements 0 and 2 pass and whose element 1 is
strided but on another device, the error is `DeviceMismatch` at sequence
element 1. -/
theorem checked_dense_tensor_list_unwrap_reachable_first_failure (name : String) (pos : Int)
    (device_type : DeviceType) (scalar_type : ScalarType) :
    (∀ tensors : List Tensor,
      (∃ i < 2 ^ 32, ∃ t, tensors[i]? = some t
        ∧ ¬ (t.layout = Layout.Strided ∧ t.device.type = device_type
          ∧ t.scalar_type = scalar_type)) →
      ∃ (k : Nat) (expr : Tensor), tensors[k]? = some expr
        ∧ (∀ j < k, ∀ t, tensors[j]? = some t →
            t.layout = Layout.Strided ∧ t.device.type = device_type
              ∧ t.scalar_type = scalar_type)
        ∧ ((expr.layout ≠ Layout.Strided
              ∧ ∀ fuel, k < fuel →
                checked_dense_tensor_list_unwrap tensors name pos device_type scalar_type fuel
                  = some (.error (Error.LayoutMismatch expr.layout
                      (ArgRef.sequenceElement k pos name))))
          ∨ (expr.layout = Layout.Strided ∧ expr.device.type ≠ device_type
              ∧ ∀ fuel, k < fuel →
                checked_dense_tensor_list_unwrap tensors name pos device_type scalar_type fuel
                  = some (.error (Error.DeviceMismatch device_type expr.device.type
                      (ArgRef.sequenceElement k pos name))))
          ∨ (expr.layout = Layout.Strided ∧ expr.device.type = device_type
              ∧ expr.scalar_type ≠ scalar_type
              ∧ ∀ fuel, k < fuel →
                checked_dense_tensor_list_unwrap tensors name pos device_type scalar_type fuel
                  = some (.error (Error.DtypeMismatch scalar_type expr.scalar_type
                      (ArgRef.sequenceElement k pos name))))))
    ∧ (∀ t0 t1 t2 : Tensor,
        (t0.layout = Layout.Strided ∧ t0.device.type = device_type
          ∧ t0.scalar_type = scalar_type) →
        (t2.layout = Layout.Strided ∧ t2.device.type = device_type
          ∧ t2.scalar_type = scalar_type) →
        t1.layout = Layout.Strided → t1.device.type ≠ device_type →
        ∀ fuel, 1 < fuel →
          checked_dense_tensor_list_unwrap [t0, t1, t2] name pos device_type scalar_type fuel
            = some (.error (Error.DeviceMismatch device_type t1.device.type
                (ArgRef.sequenceElement 1 pos name)))) := by
  constructor
  · intro tensors hbad
    obtain ⟨k, expr, e, hk, _, hbefore, hff, herr⟩ :=
      checked_dense_tensor_list_unwrap.error_of_reachable_failure tensors name pos
        device_type scalar_type hbad
    refine ⟨k, expr, hk, hbefore, ?_⟩
    rcases checked_dense_tensor_list_unwrap.firstFailure_eq_some name pos device_type
        scalar_type expr k e hff with ⟨h1, rfl⟩ | ⟨h1, h2, rfl⟩ | ⟨h1, h2, h3, rfl⟩
    · exact Or.inl ⟨h1, herr⟩
    · exact Or.inr (Or.inl ⟨h1, h2, herr⟩)
    · exact Or.inr (Or.inr ⟨h1, h2, h3, herr⟩)
  · rintro t0 t1 t2 ⟨a1, a2, a3⟩ _ b1 b2 fuel hfuel
    obtain ⟨f, rfl⟩ : ∃ f, fuel = f + 2 := ⟨fuel - 2, by omega⟩
    simp [checked_dense_tensor_list_unwrap, checked_dense_tensor_list_unwrap.loop,
      a1, a2, a3, b1, b2]

/-- Instance of the first-failure theorem: with CPU/Float required, the list of
a good tensor, a strided CUDA tensor and a good tensor fails with
`DeviceMismatch` at sequence element 1, within two evaluations of the loop
test. -/
theorem checked_dense_tensor_list_unwrap_reachable_first_failure_witness :
    checked_dense_tensor_list_unwrap
        [⟨true, Layout.Strided, ⟨DeviceType.CPU, 0⟩, ScalarType.Float, ⟨16⟩⟩,
         ⟨true, Layout.Strided, ⟨DeviceType.CUDA, 0⟩, ScalarType.Float, ⟨32⟩⟩,
         ⟨true, Layout.Strided, ⟨DeviceType.CPU, 0⟩, ScalarType.Float, ⟨48⟩⟩]
        "tensors" 1 DeviceType.CPU ScalarType.Float 2
      = some (.error (Error.DeviceMismatch DeviceType.CPU DeviceType.CUDA
          (ArgRef.sequenceElement 1 1 "tensors"))) :=
  (checked_dense_tensor_list_unwrap_reachable_first_failure "tensors" 1 DeviceType.CPU
      ScalarType.Float).2 _ _ _ ⟨rfl, rfl, rfl⟩ ⟨rfl, rfl, rfl⟩ rfl (by decide) 2 (by decide)

/-- On `n ≥ 2 ^ 32` copies of a tensor that passes the three checks, followed by
any further tensors, `checked_dense_tensor_list_unwrap` returns no result,
whatever the number of evaluations of the loop test allowed. -/
theorem checked_dense_tensor_list_unwrap.diverges_on_replicate (n : Nat) (hn : 2 ^ 32 ≤ n)
    (a : Tensor) (rest : List Tensor) (name : String) (pos : Int)
    (device_type : DeviceType) (scalar_type : ScalarType)
    (ha : a.layout = Layout.Strided ∧ a.device.type = device_type
      ∧ a.scalar_type = scalar_type) :
    ∀ fuel, checked_dense_tensor_list_unwrap (List.replicate n a ++ rest) name pos
      device_type scalar_type fuel = none := by
  intro fuel
  apply checked_dense_tensor_list_unwrap.loop_diverges
  · rw [List.length_append, List.length_replicate]
    omega
  · intro j hj t ht
    have hjn : j < (List.replicate n a).length := by
      rw [List.length_replicate]
      omega
    rw [List.getElem?_append_left hjn] at ht
    have hmem := List.getElem?_mem ht
    rw [List.eq_of_mem_replicate hmem]
    exact ha
  · norm_num

/-- The element right after `n` copies of `a`. -/
theorem getElem?_replicate_append_singleton (n : Nat) (a b : Tensor) :
    (List.replicate n a ++ [b])[n]? = some b := by
  rw [List.getElem?_append_right (by rw [List.length_replicate])]
  simp

/-- C4 (failing input): in the list of `2 ^ 32` copies of a strided CPU float
tensor every element has layout `Strided`, the required device type and the
required scalar type, yet `checked_dense_tensor_list_unwrap` returns no result
within any number of evaluations of the loop test: the `unsigned int` counter
wraps to 0 after index `2 ^ 32 - 1` and never reaches `tensors.size()`. -/
theorem checked_dense_tensor_list_unwrap_counter_wraps :
    (List.replicate (2 ^ 32)
        (⟨true, Layout.Strided, ⟨DeviceType.CPU, 0⟩, ScalarType.Float, ⟨16⟩⟩ : Tensor)).length
      = 2 ^ 32
    ∧ (∀ t ∈ List.replicate (2 ^ 32)
          (⟨true, Layout.Strided, ⟨DeviceType.CPU, 0⟩, ScalarType.Float, ⟨16⟩⟩ : Tensor),
        t.layout = Layout.Strided ∧ t.device.type = DeviceType.CPU
          ∧ t.scalar_type = ScalarType.Float)
    ∧ ¬ ∃ (fuel : Nat) (res : Except Error (List TensorImpl)),
        checked_dense_tensor_list_unwrap
          (List.replicate (2 ^ 32)
            (⟨true, Layout.Strided, ⟨DeviceType.CPU, 0⟩, ScalarType.Float, ⟨16⟩⟩ : Tensor))
          "tensors" 1 DeviceType.CPU ScalarType.Float fuel
        = some res := by
  refine ⟨List.length_replicate _ _, ?_, ?_⟩
  · intro t ht
    rw [List.eq_of_mem_replicate ht]
    exact ⟨rfl, rfl, rfl⟩
  · rintro ⟨fuel, res, h⟩
    have hdiv := checked_dense_tensor_list_unwrap.diverges_on_replicate (2 ^ 32)
      (Nat.le_refl _)
      ⟨true, Layout.Strided, ⟨DeviceType.CPU, 0⟩, ScalarType.Float, ⟨16⟩⟩ []
      "tensors" 1 DeviceType.CPU ScalarType.Float ⟨rfl, rfl, rfl⟩ fuel
    rw [List.append_nil] at hdiv
    rw [hdiv] at h
    cases h

/-- C5 (failing input): in the list of `2 ^ 32` strided CPU float tensors
followed by one sparse tensor, the element at index `2 ^ 32` fails the layout
check and is the only one to fail, yet `checked_dense_tensor_list_unwrap`
returns no result, and so no error for index `2 ^ 32`, within any number of
evaluations of the loop test: the `unsigned int` counter wraps to 0 before it
reaches that index. -/
theorem checked_dense_tensor_list_unwrap_failure_beyond_counter :
    (List.replicate (2 ^ 32)
        (⟨true, Layout.Strided, ⟨DeviceType.CPU, 0⟩, ScalarType.Float, ⟨16⟩⟩ : Tensor)
      ++ [⟨true, Layout.Sparse, ⟨DeviceType.CPU, 0⟩, ScalarType.Float, ⟨32⟩⟩])[2 ^ 32]?
      = some ⟨true, Layout.Sparse, ⟨DeviceType.CPU, 0⟩, ScalarType.Float, ⟨32⟩⟩
    ∧ (⟨true, Layout.Sparse, ⟨DeviceType.CPU, 0⟩, ScalarType.Float, ⟨32⟩⟩ : Tensor).layout
      ≠ Layout.Strided
    ∧ ¬ ∃ (fuel : Nat) (res : Except Error (List TensorImpl)),
        checked_dense_tensor_list_unwrap
          (List.replicate (2 ^ 32)
              (⟨true, Layout.Strided, ⟨DeviceType.CPU, 0⟩, ScalarType.Float, ⟨16⟩⟩ : Tensor)
            ++ [⟨true, Layout.Sparse, ⟨DeviceType.CPU, 0⟩, ScalarType.Float, ⟨32⟩⟩])
          "tensors" 1 DeviceType.CPU ScalarType.Float fuel
        = some res := by
  refine ⟨getElem?_replicate_append_singleton _ _ _, by decide, ?_⟩
  rintro ⟨fuel, res, h⟩
  have hdiv := checked_dense_tensor_list_unwrap.diverges_on_replicate (2 ^ 32)
    (Nat.le_refl _)
    ⟨true, Layout.Strided, ⟨DeviceType.CPU, 0⟩, ScalarType.Float, ⟨16⟩⟩
    [⟨true, Layout.Sparse, ⟨DeviceType.CPU, 0⟩, ScalarType.Float, ⟨32⟩⟩]
    "tensors" 1 DeviceType.CPU ScalarType.Float ⟨rfl, rfl, rfl⟩ fuel
  rw [hdiv] at h
  cases h

end ATen
